import Mathlib

/-!
Verification of the tanaka sync server (`src/server`) against its
specification. The Rust sources are shallowly embedded: Rust `String` is a
list of characters, `u64` clock values are `Nat` with the `i64` clamp of the
SQLite column made explicit, the SQLite operation log is a list of rows with
the `ORDER BY` clauses modelled by `List.insertionSort`, and fallible Rust
functions return `Except`. Wall-clock timestamps (`chrono::Utc::now`) are
passed in as an explicit `now` argument. Database mutation is modelled by
threading the row list through each call; a request handler returns the
result together with the post-state, so that partially committed batches
remain visible even when the handler fails.
-/

/-- Rust `String` / `&str`, modelled as its list of characters. -/
abbrev Str := List Char

/-- `i64::MAX`, the largest value the SQLite `clock` column can hold. -/
def i64Max : Nat := 2 ^ 63 - 1

/-- `i64::try_from(clock).unwrap_or(i64::MAX)` applied to a `u64` clock, as in
`SqliteOperationRepository::store` and the legacy `store_operation`:
values up to `i64::MAX` are preserved, larger ones become `i64::MAX`. -/
def clampToI64 (clock : Nat) : Nat := min clock i64Max

/-- The decimal rendering of `format!("{}", clock)`: Lean core's
`Nat.toDigits 10`, which is fuel-structural and hence evaluates by `rfl`. -/
def natChars (n : Nat) : Str := Nat.toDigits 10 n

/-- Structurally recursive specification of decimal rendering, used to reason
about `natChars`. -/
def natCharsSpec (n : Nat) : Str :=
  if n < 10 then [Nat.digitChar n]
  else natCharsSpec (n / 10) ++ [Nat.digitChar (n % 10)]
termination_by n
decreasing_by
  exact Nat.div_lt_self (by omega) (by omega)

theorem digitChar_toNat {d : Nat} (h : d < 10) :
    (Nat.digitChar d).toNat = 48 + d := by
  interval_cases d <;> rfl

theorem digitChar_ne_underscore {d : Nat} (h : d < 10) :
    Nat.digitChar d ≠ '_' := by
  interval_cases d <;> decide

theorem natCharsSpec_of_lt {n : Nat} (h : n < 10) :
    natCharsSpec n = [Nat.digitChar n] := by
  rw [natCharsSpec, if_pos h]

theorem natCharsSpec_of_ge {n : Nat} (h : ¬ n < 10) :
    natCharsSpec n = natCharsSpec (n / 10) ++ [Nat.digitChar (n % 10)] := by
  rw [natCharsSpec, if_neg h]

theorem toDigitsCore_eq_spec (fuel : Nat) :
    ∀ n acc, n < fuel →
      Nat.toDigitsCore 10 fuel n acc = natCharsSpec n ++ acc := by
  induction fuel with
  | zero => intro n acc h; omega
  | succ fuel ih =>
    intro n acc h
    rw [Nat.toDigitsCore]
    by_cases h10 : n / 10 = 0
    · have hn : n < 10 := by omega
      rw [if_pos h10, natCharsSpec_of_lt hn, Nat.mod_eq_of_lt hn]
      rfl
    · have hn : ¬ n < 10 := by
        intro hlt
        exact h10 (Nat.div_eq_of_lt hlt)
      have hdiv : n / 10 < fuel := by
        have := Nat.div_lt_self (n := n) (k := 10) (by omega) (by omega)
        omega
      rw [if_neg h10, ih (n / 10) _ hdiv, natCharsSpec_of_ge hn,
        List.append_assoc]
      rfl

theorem natChars_eq_spec (n : Nat) : natChars n = natCharsSpec n := by
  have h := toDigitsCore_eq_spec (n + 1) n [] (Nat.lt_succ_self n)
  simpa [natChars, Nat.toDigits] using h

theorem natCharsSpec_no_underscore (n : Nat) : '_' ∉ natCharsSpec n := by
  induction n using Nat.strong_induction_on with
  | _ n ih =>
    by_cases h : n < 10
    · rw [natCharsSpec_of_lt h]
      intro hc
      exact digitChar_ne_underscore h (List.mem_singleton.mp hc).symm
    · rw [natCharsSpec_of_ge h]
      intro hc
      rcases List.mem_append.mp hc with hmem | hlast
      · exact ih (n / 10) (Nat.div_lt_self (by omega) (by omega)) hmem
      · exact digitChar_ne_underscore (Nat.mod_lt n (by omega))
          (List.mem_singleton.mp hlast).symm

theorem natChars_no_underscore (n : Nat) : '_' ∉ natChars n := by
  rw [natChars_eq_spec]; exact natCharsSpec_no_underscore n

/-- Decimal decoding, a left inverse of `natCharsSpec`. -/
def decodeDec (l : Str) : Nat := l.foldl (fun a c => 10 * a + (c.toNat - 48)) 0

theorem decodeDec_natCharsSpec (n : Nat) : decodeDec (natCharsSpec n) = n := by
  induction n using Nat.strong_induction_on with
  | _ n ih =>
    by_cases h : n < 10
    · rw [natCharsSpec_of_lt h]
      show 10 * 0 + ((Nat.digitChar n).toNat - 48) = n
      rw [digitChar_toNat h]
      omega
    · have hlt : n / 10 < n := Nat.div_lt_self (by omega) (by omega)
      have hmod : (Nat.digitChar (n % 10)).toNat = 48 + n % 10 :=
        digitChar_toNat (Nat.mod_lt n (by omega))
      rw [natCharsSpec_of_ge h]
      unfold decodeDec
      rw [List.foldl_append]
      have hdiv := ih (n / 10) hlt
      unfold decodeDec at hdiv
      rw [hdiv, List.foldl_cons, List.foldl_nil, hmod]
      omega

theorem natChars_injective {m n : Nat} (h : natChars m = natChars n) : m = n := by
  have hm := decodeDec_natCharsSpec m
  have hn := decodeDec_natCharsSpec n
  rw [natChars_eq_spec, natChars_eq_spec] at h
  rw [← hm, ← hn, h]

/-- Two lists that avoid `'_'` followed by an underscore-separated tail:
the first underscore determines the split. -/
theorem underscore_split_inj :
    ∀ (A1 A2 B1 B2 : Str), '_' ∉ A1 → '_' ∉ A2 →
      A1 ++ '_' :: B1 = A2 ++ '_' :: B2 → A1 = A2 ∧ B1 = B2 := by
  intro A1
  induction A1 with
  | nil =>
    intro A2 B1 B2 _ h2 he
    cases A2 with
    | nil => simpa using he
    | cons a A2 =>
      simp only [List.nil_append, List.cons_append, List.cons.injEq] at he
      exact absurd (show ('_' : Char) ∈ a :: A2 by
        rw [he.1]; exact List.mem_cons_self a A2) h2
  | cons a A1 ih =>
    intro A2 B1 B2 h1 h2 he
    cases A2 with
    | nil =>
      simp only [List.cons_append, List.nil_append, List.cons.injEq] at he
      exact absurd (show ('_' : Char) ∈ a :: A1 by
        rw [← he.1]; exact List.mem_cons_self a A1) h1
    | cons b A2 =>
      simp only [List.cons_append, List.cons.injEq] at he
      have h1' : '_' ∉ A1 := fun hm => h1 (List.mem_cons_of_mem a hm)
      have h2' : '_' ∉ A2 := fun hm => h2 (List.mem_cons_of_mem b hm)
      obtain ⟨hA, hB⟩ := ih A2 B1 B2 h1' h2' he.2
      exact ⟨by rw [he.1, hA], hB⟩

/-! ## Data model (`src/server/src/sync.rs`) -/

/-- `TabData` from `sync.rs`. -/
structure TabData where
  window_id : Str
  url : Str
  title : Str
  active : Bool
  index : Int
  updated_at : Nat
deriving DecidableEq

/-- `CrdtOperation` from `sync.rs`: the tagged union of the eight operation
variants. -/
inductive CrdtOperation where
  | upsertTab (id : Str) (data : TabData)
  | closeTab (id : Str) (closed_at : Nat)
  | setActive (id : Str) (active : Bool) (updated_at : Nat)
  | moveTab (id : Str) (window_id : Str) (index : Int) (updated_at : Nat)
  | changeUrl (id : Str) (url : Str) (title : Option Str) (updated_at : Nat)
  | trackWindow (id : Str) (tracked : Bool) (updated_at : Nat)
  | untrackWindow (id : Str) (updated_at : Nat)
  | setWindowFocus (id : Str) (focused : Bool) (updated_at : Nat)
deriving DecidableEq

/-- `CrdtOperation::target_id`. -/
def CrdtOperation.target_id : CrdtOperation → Str
  | .upsertTab id _ => id
  | .closeTab id _ => id
  | .setActive id _ _ => id
  | .moveTab id _ _ _ => id
  | .changeUrl id _ _ _ => id
  | .trackWindow id _ _ => id
  | .untrackWindow id _ => id
  | .setWindowFocus id _ _ => id

/-- `CrdtOperation::operation_type`. -/
def CrdtOperation.operation_type : CrdtOperation → Str
  | .upsertTab _ _ => "upsert_tab".data
  | .closeTab _ _ => "close_tab".data
  | .setActive _ _ _ => "set_active".data
  | .moveTab _ _ _ _ => "move_tab".data
  | .changeUrl _ _ _ _ => "change_url".data
  | .trackWindow _ _ _ => "track_window".data
  | .untrackWindow _ _ => "untrack_window".data
  | .setWindowFocus _ _ _ => "set_window_focus".data

/-- `StoredOperation` (declared in `crate::sync`; its definition is
reconstructed from its construction in `repository/mock.rs` and
`repository/sqlite/operation.rs`): an operation plus its storage envelope. -/
structure StoredOperation where
  id : Str
  clock : Nat
  device_id : Str
  operation : CrdtOperation
  created_at : Int
deriving DecidableEq

/-- One row of the `crdt_operations` SQLite table, as written by
`SqliteOperationRepository::store`. The serialized `operation_data` blob is
modelled by the operation itself (serde round-trips it). -/
structure OpRow where
  id : Str
  clock : Nat
  device_id : Str
  operation_type : Str
  target_id : Str
  operation : CrdtOperation
  created_at : Int
deriving DecidableEq

/-- `format!("{}_{}_{}", clock, device_id, operation.target_id())`. -/
def operationId (clock : Nat) (device_id : Str) (target : Str) : Str :=
  natChars clock ++ '_' :: (device_id ++ '_' :: target)

theorem operationId_clock_inj {c1 c2 : Nat} {dev t1 t2 : Str}
    (hne : c1 ≠ c2) : operationId c1 dev t1 ≠ operationId c2 dev t2 := by
  intro he
  have := underscore_split_inj (natChars c1) (natChars c2)
    (dev ++ '_' :: t1) (dev ++ '_' :: t2)
    (natChars_no_underscore c1) (natChars_no_underscore c2) he
  exact hne (natChars_injective this.1)

/-- The row built by `SqliteOperationRepository::store` before the INSERT:
the id uses the raw `u64` clock while the `clock` column gets the
`i64`-clamped value. -/
def mkStoredRow (clock : Nat) (device_id : Str) (operation : CrdtOperation)
    (now : Int) : OpRow :=
  { id := operationId clock device_id operation.target_id
    clock := clampToI64 clock
    device_id := device_id
    operation_type := operation.operation_type
    target_id := operation.target_id
    operation := operation
    created_at := now }

/-- Reading a row back into a `StoredOperation`
(`u64::try_from(row.clock).unwrap_or(0)` is the identity here because the
stored column value is non-negative). -/
def rowToStored (r : OpRow) : StoredOperation :=
  { id := r.id
    clock := r.clock
    device_id := r.device_id
    operation := r.operation
    created_at := r.created_at }

/-! ## Errors (`src/server/src/error.rs`, restricted to what the sync engine
produces). Messages built with `format!` that interpolate configured limits
are modelled by their constant text. -/

inductive AppError where
  | validation (message : String) (field : Option String)
  | database (message : String)
deriving DecidableEq

/-- Message of the database error raised when the INSERT in `store` fails
(in particular on a duplicate primary key). -/
def msgStoreFailed : String := "Failed to store CRDT operation"

/-! ## Operation log store (`src/server/src/repository/sqlite/operation.rs`).
The `crdt_operations` table is a list of rows; `ORDER BY clock` clauses are
modelled with `List.insertionSort` over the clock ordering. -/

def rowLe (a b : OpRow) : Prop := a.clock ≤ b.clock

def rowGe (a b : OpRow) : Prop := b.clock ≤ a.clock

instance : DecidableRel rowLe := fun a b => Nat.decLe a.clock b.clock

instance : DecidableRel rowGe := fun a b => Nat.decLe b.clock a.clock

instance : IsTotal OpRow rowLe := ⟨fun a b => Nat.le_total a.clock b.clock⟩

instance : IsTrans OpRow rowLe := ⟨fun _ _ _ h1 h2 => Nat.le_trans h1 h2⟩

instance : IsTotal OpRow rowGe := ⟨fun a b => Nat.le_total b.clock a.clock⟩

instance : IsTrans OpRow rowGe := ⟨fun _ _ _ h1 h2 => Nat.le_trans h2 h1⟩

/-- Clock order on read-back records. -/
def storedLe (a b : StoredOperation) : Prop := a.clock ≤ b.clock

namespace SqliteOperationRepository

/-- `store`: INSERT of one row; a duplicate primary key `id` is a hard
database error. -/
def store (db : List OpRow) (operation : CrdtOperation) (clock : Nat)
    (device_id : Str) (now : Int) : Except AppError (List OpRow) :=
  let row := mkStoredRow clock device_id operation now
  if db.any (fun r => decide (r.id = row.id)) then
    Except.error (AppError.database msgStoreFailed)
  else
    Except.ok (db ++ [row])

/-- `get_since`: `WHERE clock > ? AND device_id != ? ORDER BY clock ASC`,
with the bound parameter `i64::try_from(since_clock).unwrap_or(i64::MAX)`. -/
def get_since (db : List OpRow) (device_id : Str) (since_clock : Nat) :
    List StoredOperation :=
  (List.insertionSort rowLe
      (db.filter (fun r =>
        decide (clampToI64 since_clock < r.clock) &&
        decide (r.device_id ≠ device_id)))).map rowToStored

/-- `get_recent`: `WHERE device_id != ? ORDER BY clock DESC LIMIT ?`, then
reversed into chronological order. -/
def get_recent (db : List OpRow) (device_id : Str) (limit : Nat) :
    List StoredOperation :=
  (((List.insertionSort rowGe
      (db.filter (fun r => decide (r.device_id ≠ device_id)))).take
        limit).reverse).map rowToStored

/-- `get_max_clock`: `SELECT COALESCE(MAX(clock), 0)`. -/
def get_max_clock (db : List OpRow) : Nat :=
  db.foldr (fun r m => max r.clock m) 0

/-- `get_all`: every row, `ORDER BY clock ASC`. -/
def get_all (db : List OpRow) : List StoredOperation :=
  (List.insertionSort rowLe db).map rowToStored

end SqliteOperationRepository

/-! ## Lamport clock (`src/server/src/crdt.rs`). The atomic `u64` becomes a
pure state value; `tick` returns the pre-increment value. -/

structure LamportClock where
  value : Nat
  node_id : Nat
deriving DecidableEq

/-- `LamportClock::new`: initial value 1. -/
def LamportClock.new (node_id : Nat) : LamportClock :=
  { value := 1, node_id := node_id }

/-- `LamportClock::with_initial_value`. -/
def LamportClock.with_initial_value (node_id : Nat) (initial_value : Nat) :
    LamportClock :=
  { value := initial_value, node_id := node_id }

/-- `LamportClock::tick`: `fetch_add(1)` returns the old value. -/
def LamportClock.tick (c : LamportClock) : Nat × LamportClock :=
  (c.value, { c with value := c.value + 1 })

/-- `LamportClock::update`: CAS loop setting `max(received, current) + 1`,
returning the new value. -/
def LamportClock.update (c : LamportClock) (received_clock : Nat) :
    Nat × LamportClock :=
  let new_value := max received_clock c.value + 1
  (new_value, { c with value := new_value })

/-- `LamportClock::current`. -/
def LamportClock.current (c : LamportClock) : Nat := c.value

/-! ## CRDT document (`src/server/src/crdt.rs`). The two yrs maps become
functions from key to optional record; `get_tabs`/`get_windows` read the
record back with its `id` field set from the map key, which the model keeps
as the stored record itself. -/

structure CrdtTab where
  id : Str
  window_id : Str
  url : Str
  title : Str
  active : Bool
  index : Int
  updated_at : Nat
deriving DecidableEq

structure CrdtWindow where
  id : Str
  tracked : Bool
  tab_count : Nat
  updated_at : Nat
deriving DecidableEq

@[ext]
structure CrdtDocument where
  tabs : Str → Option CrdtTab
  windows : Str → Option CrdtWindow

/-- `CrdtDocument::new`: empty maps. -/
def CrdtDocument.new : CrdtDocument :=
  { tabs := fun _ => none, windows := fun _ => none }

/-- `tabs_map.insert(txn, tab.id, ...)`. -/
def CrdtDocument.upsert_tab (doc : CrdtDocument) (tab : CrdtTab) :
    CrdtDocument :=
  { doc with tabs := fun k => if k = tab.id then some tab else doc.tabs k }

/-- `tabs_map.remove(txn, tab_id)`. -/
def CrdtDocument.remove_tab (doc : CrdtDocument) (tab_id : Str) :
    CrdtDocument :=
  { doc with tabs := fun k => if k = tab_id then none else doc.tabs k }

/-- `windows_map.insert(txn, window.id, ...)`. -/
def CrdtDocument.upsert_window (doc : CrdtDocument) (window : CrdtWindow) :
    CrdtDocument :=
  { doc with
    windows := fun k => if k = window.id then some window else doc.windows k }

/-- `tabs.into_iter().find(|t| t.id == *id)` over `get_tabs()`: `get_tabs`
stamps each record's `id` from the map key, so the search is a key lookup
whose result carries `id = key`. -/
def CrdtDocument.find_tab (doc : CrdtDocument) (id : Str) : Option CrdtTab :=
  match doc.tabs id with
  | some t => some { t with id := id }
  | none => none

/-- `windows.into_iter().find(|w| w.id == *id)` over `get_windows()`. -/
def CrdtDocument.find_window (doc : CrdtDocument) (id : Str) :
    Option CrdtWindow :=
  match doc.windows id with
  | some w => some { w with id := id }
  | none => none

/-! ## Applying operations to the document: the live path
(`apply_operation_to_state`, `src/server/src/sync.rs:359`) and the startup
replay (`CrdtManager::restore_from_operations`, `src/server/src/crdt.rs:505`).
-/

/-- `apply_operation_to_state`: the live-path application of one operation at
its assigned clock. -/
def apply_operation_to_state (doc : CrdtDocument) (operation : CrdtOperation)
    (clock : Nat) : CrdtDocument :=
  match operation with
  | .upsertTab id data =>
    doc.upsert_tab
      { id := id, window_id := data.window_id, url := data.url,
        title := data.title, active := data.active, index := data.index,
        updated_at := clock }
  | .closeTab id _ => doc.remove_tab id
  | .setActive id active _ =>
    match doc.find_tab id with
    | some tab => doc.upsert_tab { tab with active := active, updated_at := clock }
    | none => doc
  | .moveTab id window_id index _ =>
    match doc.find_tab id with
    | some tab =>
      doc.upsert_tab
        { tab with window_id := window_id, index := index, updated_at := clock }
    | none => doc
  | .changeUrl id url title _ =>
    match doc.find_tab id with
    | some tab =>
      doc.upsert_tab
        { tab with
          url := url,
          title := (match title with | some new_title => new_title | none => tab.title),
          updated_at := clock }
    | none => doc
  | .trackWindow id tracked _ =>
    doc.upsert_window
      { id := id, tracked := tracked, tab_count := 0, updated_at := clock }
  | .untrackWindow id _ =>
    match doc.find_window id with
    | some window =>
      doc.upsert_window { window with tracked := false, updated_at := clock }
    | none =>
      doc.upsert_window
        { id := id, tracked := false, tab_count := 0, updated_at := clock }
  | .setWindowFocus id _ _ =>
    match doc.find_window id with
    | some window => doc.upsert_window { window with updated_at := clock }
    | none => doc

/-- One iteration of the replay loop in
`CrdtManager::restore_from_operations`. Note the differences from the live
path: `TrackWindow` always writes `tracked = true`, and `UntrackWindow`
on a missing window is skipped instead of creating an untracked record. -/
def restoreApplyOp (doc : CrdtDocument) (stored_op : StoredOperation) :
    CrdtDocument :=
  let clock := stored_op.clock
  match stored_op.operation with
  | .upsertTab id data =>
    doc.upsert_tab
      { id := id, window_id := data.window_id, url := data.url,
        title := data.title, active := data.active, index := data.index,
        updated_at := clock }
  | .closeTab id _ => doc.remove_tab id
  | .setActive id active _ =>
    match doc.find_tab id with
    | some tab => doc.upsert_tab { tab with active := active, updated_at := clock }
    | none => doc
  | .moveTab id window_id index _ =>
    match doc.find_tab id with
    | some tab =>
      doc.upsert_tab
        { tab with window_id := window_id, index := index, updated_at := clock }
    | none => doc
  | .changeUrl id url title _ =>
    match doc.find_tab id with
    | some tab =>
      doc.upsert_tab
        { tab with
          url := url,
          title := (match title with | some new_title => new_title | none => tab.title),
          updated_at := clock }
    | none => doc
  | .trackWindow id _ _ =>
    doc.upsert_window
      { id := id, tracked := true, tab_count := 0, updated_at := clock }
  | .untrackWindow id _ =>
    match doc.find_window id with
    | some window =>
      doc.upsert_window { window with tracked := false, updated_at := clock }
    | none => doc
  | .setWindowFocus id _ _ =>
    match doc.find_window id with
    | some window => doc.upsert_window { window with updated_at := clock }
    | none => doc

/-- `CrdtManager::restore_from_operations` over the single default document. -/
def restore_from_operations (doc : CrdtDocument)
    (operations : List StoredOperation) : CrdtDocument :=
  operations.foldl restoreApplyOp doc

/-- The live path applied over a whole sequence of stored operations, each at
its assigned clock (`store_operation` calls `apply_operation_to_state`). -/
def applyAllLive (doc : CrdtDocument) (operations : List StoredOperation) :
    CrdtDocument :=
  operations.foldl
    (fun d sop => apply_operation_to_state d sop.operation sop.clock) doc

/-! ## Validation and the sync service
(`src/server/src/services/sync.rs`). -/

/-- The `sync` part of the configuration (`SyncConfig`); defaults are
`max_url_length = 2048`, `max_title_length = 512`. -/
structure SyncConfig where
  max_url_length : Nat
  max_title_length : Nat
deriving DecidableEq

def SyncConfig.default : SyncConfig :=
  { max_url_length := 2048, max_title_length := 512 }

/-- `SyncRequest` (`src/server/src/sync.rs`). -/
structure SyncRequest where
  clock : Nat
  device_id : Str
  since_clock : Option Nat
  operations : List CrdtOperation
deriving DecidableEq

/-- `SyncResponse` (`src/server/src/sync.rs`). -/
structure SyncResponse where
  clock : Nat
  operations : List CrdtOperation
deriving DecidableEq

def sentinelDeviceId : Str := "auth-validated".data

def fldDeviceId : String := "device_id"

def fldSinceClock : String := "since_clock"

def fldOperations : String := "operations"

def fldId : String := "id"

def fldUrl : String := "url"

def fldTitle : String := "title"

def fldWindowId : String := "window_id"

def fldDataUrl : String := "data.url"

def fldDataWindowId : String := "data.window_id"

def fldDataIndex : String := "data.index"

def fldIndex : String := "index"

def msgDeviceIdEmpty : String := "Device ID cannot be empty"

def msgDeviceIdTooLong : String := "Device ID too long (max 128 characters)"

def msgDeviceIdInvalid : String := "Invalid device ID format"

def msgSinceClockGreater : String := "since_clock cannot be greater than current clock"

def msgTooManyOps : String := "Too many operations in single request (max 1000)"

def msgTabIdEmpty : String := "Tab ID cannot be empty"

def msgTabIdTooLong : String := "Tab ID too long (max 256 characters)"

def msgTabUrlEmpty : String := "Tab URL cannot be empty"

def msgUrlEmpty : String := "URL cannot be empty"

def msgUrlTooLong : String := "URL too long"

def msgTitleTooLong : String := "Title too long"

def msgWindowIdEmpty : String := "Window ID cannot be empty"

def msgIndexNegative : String := "Tab index cannot be negative"

/-- `CrdtSyncService::validate_sync_request` (the `AuthContext` argument is
unused in the source). The source's
`if let Some(since_clock) = request.since_clock { if since_clock > request.clock { ... } }`
is folded into the equivalent `Option.any` guard. -/
def validate_sync_request (request : SyncRequest) : Except AppError Unit :=
  if request.device_id = [] then
    Except.error (AppError.validation msgDeviceIdEmpty (some fldDeviceId))
  else if 128 < request.device_id.length then
    Except.error (AppError.validation msgDeviceIdTooLong (some fldDeviceId))
  else if request.device_id = sentinelDeviceId then
    Except.error (AppError.validation msgDeviceIdInvalid (some fldDeviceId))
  else if request.since_clock.any
      (fun since_clock => decide (request.clock < since_clock)) then
    Except.error (AppError.validation msgSinceClockGreater (some fldSinceClock))
  else if 1000 < request.operations.length then
    Except.error (AppError.validation msgTooManyOps (some fldOperations))
  else Except.ok ()

/-- The per-operation body of `CrdtSyncService::validate_operations`. -/
def validate_one_operation (config : SyncConfig) (operation : CrdtOperation) :
    Except AppError Unit :=
  match operation with
  | .upsertTab id data =>
    if id = [] then
      Except.error (AppError.validation msgTabIdEmpty (some fldId))
    else if 256 < id.length then
      Except.error (AppError.validation msgTabIdTooLong (some fldId))
    else if data.url = [] then
      Except.error (AppError.validation msgTabUrlEmpty (some fldUrl))
    else if config.max_url_length < data.url.length then
      Except.error (AppError.validation msgUrlTooLong (some fldUrl))
    else if config.max_title_length < data.title.length then
      Except.error (AppError.validation msgTitleTooLong (some fldTitle))
    else if data.window_id = [] then
      Except.error (AppError.validation msgWindowIdEmpty (some fldWindowId))
    else Except.ok ()
  | .closeTab id _ =>
    if id = [] then
      Except.error (AppError.validation msgTabIdEmpty (some fldId))
    else Except.ok ()
  | .setActive id _ _ =>
    if id = [] then
      Except.error (AppError.validation msgTabIdEmpty (some fldId))
    else Except.ok ()
  | .changeUrl id url _ _ =>
    if id = [] then
      Except.error (AppError.validation msgTabIdEmpty (some fldId))
    else if url = [] then
      Except.error (AppError.validation msgUrlEmpty (some fldUrl))
    else if config.max_url_length < url.length then
      Except.error (AppError.validation msgUrlTooLong (some fldUrl))
    else Except.ok ()
  | .moveTab id window_id _ _ =>
    if id = [] then
      Except.error (AppError.validation msgTabIdEmpty (some fldId))
    else if window_id = [] then
      Except.error (AppError.validation msgWindowIdEmpty (some fldWindowId))
    else Except.ok ()
  | .trackWindow id _ _ =>
    if id = [] then
      Except.error (AppError.validation msgWindowIdEmpty (some fldId))
    else Except.ok ()
  | .untrackWindow id _ =>
    if id = [] then
      Except.error (AppError.validation msgWindowIdEmpty (some fldId))
    else Except.ok ()
  | .setWindowFocus id _ _ =>
    if id = [] then
      Except.error (AppError.validation msgWindowIdEmpty (some fldId))
    else Except.ok ()

/-- `CrdtSyncService::validate_operations`: the source's early-returning
`for` loop over the batch. -/
def validate_operations (config : SyncConfig) :
    List CrdtOperation → Except AppError Unit
  | [] => Except.ok ()
  | operation :: rest =>
    match validate_one_operation config operation with
    | Except.error e => Except.error e
    | Except.ok () => validate_operations config rest

/-- Server-side state seen by `CrdtSyncService::sync`: the shared Lamport
clock and the operation log. (The service stores operations but does not
touch the CRDT document.) -/
structure ServerState where
  clock : LamportClock
  db : List OpRow
deriving DecidableEq

/-- The store loop of `CrdtSyncService::sync` (lines 51–57): for each
operation, `tick_clock()` then `repositories.operations.store(...)`; a
store failure aborts the loop, keeping the rows already inserted. -/
def storeLoop (db : List OpRow) (clock : LamportClock) (device_id : Str)
    (operations : List CrdtOperation) (now : Int) :
    Except AppError Unit × List OpRow × LamportClock :=
  match operations with
  | [] => (Except.ok (), db, clock)
  | operation :: rest =>
    let (operation_clock, clock') := clock.tick
    match SqliteOperationRepository.store db operation operation_clock
        device_id now with
    | Except.error e => (Except.error e, db, clock')
    | Except.ok db' => storeLoop db' clock' device_id rest now

/-- Outbound selection of `CrdtSyncService::sync` (lines 59–78):
`get_since` on incremental sync, `get_recent(_, 100)` on initial sync. -/
def selectOutbound (db : List OpRow) (request : SyncRequest) :
    List CrdtOperation :=
  match request.since_clock with
  | some since_clock =>
    (SqliteOperationRepository.get_since db request.device_id
        since_clock).map (fun stored_op => stored_op.operation)
  | none =>
    (SqliteOperationRepository.get_recent db request.device_id
        100).map (fun stored_op => stored_op.operation)

/-- `CrdtSyncService::sync` (`src/server/src/services/sync.rs:36`): validate,
`update_clock(request.clock)`, store each operation at a fresh `tick`, then
answer with the *pre-stored* `server_clock` and the selected outbound
operations. The post-state is returned alongside so that partial effects of
a failed request stay observable. -/
def CrdtSyncService.sync (s : ServerState) (config : SyncConfig)
    (request : SyncRequest) (now : Int) :
    Except AppError SyncResponse × ServerState :=
  match validate_sync_request request with
  | Except.error e => (Except.error e, s)
  | Except.ok () =>
    match validate_operations config request.operations with
    | Except.error e => (Except.error e, s)
    | Except.ok () =>
      let (server_clock, clock1) := s.clock.update request.clock
      match storeLoop s.db clock1 request.device_id request.operations now with
      | (Except.error e, db', clock') =>
        (Except.error e, { clock := clock', db := db' })
      | (Except.ok (), db', clock') =>
        (Except.ok
            { clock := server_clock, operations := selectOutbound db' request },
          { clock := clock', db := db' })

/-! ## The legacy handler (`sync_handler` in `src/server/src/sync.rs`),
wired by `tanaka_server::create_app`. It validates with
`CrdtOperation::validate`, assigns `current_clock()` (no tick) to every
operation of the batch, applies each to the document, and answers with
`current_clock()` taken after the loop. -/

/-- `CrdtOperation::validate` (`src/server/src/sync.rs:142`): the initial
match plus the two trailing `if let` blocks, merged per variant. -/
def CrdtOperation.validate (operation : CrdtOperation) :
    Except AppError Unit :=
  match operation with
  | .upsertTab id data =>
    if id = [] then
      Except.error (AppError.validation msgTabIdEmpty (some fldId))
    else if data.url = [] then
      Except.error (AppError.validation msgTabUrlEmpty (some fldDataUrl))
    else if data.window_id = [] then
      Except.error (AppError.validation msgWindowIdEmpty (some fldDataWindowId))
    else if data.index < 0 then
      Except.error (AppError.validation msgIndexNegative (some fldDataIndex))
    else Except.ok ()
  | .closeTab id _ =>
    if id = [] then
      Except.error (AppError.validation msgTabIdEmpty (some fldId))
    else Except.ok ()
  | .setActive id _ _ =>
    if id = [] then
      Except.error (AppError.validation msgTabIdEmpty (some fldId))
    else Except.ok ()
  | .moveTab id window_id index _ =>
    if id = [] then
      Except.error (AppError.validation msgTabIdEmpty (some fldId))
    else if window_id = [] then
      Except.error (AppError.validation msgWindowIdEmpty (some fldWindowId))
    else if index < 0 then
      Except.error (AppError.validation msgIndexNegative (some fldIndex))
    else Except.ok ()
  | .changeUrl id url _ _ =>
    if id = [] then
      Except.error (AppError.validation msgTabIdEmpty (some fldId))
    else if url = [] then
      Except.error (AppError.validation msgUrlEmpty (some fldUrl))
    else Except.ok ()
  | .trackWindow id _ _ =>
    if id = [] then
      Except.error (AppError.validation msgWindowIdEmpty (some fldId))
    else Except.ok ()
  | .untrackWindow id _ =>
    if id = [] then
      Except.error (AppError.validation msgWindowIdEmpty (some fldId))
    else Except.ok ()
  | .setWindowFocus id _ _ =>
    if id = [] then
      Except.error (AppError.validation msgWindowIdEmpty (some fldId))
    else Except.ok ()

/-- The validation loop at the top of `sync_handler`. -/
def legacyValidateAll : List CrdtOperation → Except AppError Unit
  | [] => Except.ok ()
  | operation :: rest =>
    match operation.validate with
    | Except.error e => Except.error e
    | Except.ok () => legacyValidateAll rest

/-- State threaded through the legacy handler: clock, operation log, and the
default CRDT document. -/
structure LegacyState where
  clock : LamportClock
  db : List OpRow
  doc : CrdtDocument

/-- `store_operation` (`src/server/src/sync.rs:303`): the same INSERT as
`SqliteOperationRepository::store` (identical SQL and id format), then
`apply_operation_to_state`. -/
def store_operation (db : List OpRow) (doc : CrdtDocument)
    (operation : CrdtOperation) (clock : Nat) (device_id : Str) (now : Int) :
    Except AppError (List OpRow × CrdtDocument) :=
  match SqliteOperationRepository.store db operation clock device_id now with
  | Except.error e => Except.error e
  | Except.ok db' =>
    Except.ok (db', apply_operation_to_state doc operation clock)

/-- The processing loop of `sync_handler` (lines 246–267): note
`operation_clock = current_clock()` with no tick, so every operation of the
batch receives the same clock. -/
def legacyProcessOps (db : List OpRow) (doc : CrdtDocument)
    (clock : LamportClock) (device_id : Str)
    (operations : List CrdtOperation) (now : Int) :
    Except AppError Unit × List OpRow × CrdtDocument :=
  match operations with
  | [] => (Except.ok (), db, doc)
  | operation :: rest =>
    let operation_clock := clock.current
    match store_operation db doc operation operation_clock device_id now with
    | Except.error e => (Except.error e, db, doc)
    | Except.ok (db', doc') =>
      legacyProcessOps db' doc' clock device_id rest now

/-- `get_operations_since` (`src/server/src/sync.rs:505`), always called with
an excluded device. -/
def get_operations_since (db : List OpRow) (since_clock : Nat)
    (exclude_device_id : Str) : List CrdtOperation :=
  (List.insertionSort rowLe
      (db.filter (fun r =>
        decide (clampToI64 since_clock < r.clock) &&
        decide (r.device_id ≠ exclude_device_id)))).map
    (fun r => r.operation)

/-- `get_recent_operations` (`src/server/src/sync.rs:557`), always called
with an excluded device. -/
def get_recent_operations (db : List OpRow) (limit : Nat)
    (exclude_device_id : Str) : List CrdtOperation :=
  ((((List.insertionSort rowGe
      (db.filter (fun r => decide (r.device_id ≠ exclude_device_id)))).take
        limit).reverse).map (fun r => r.operation))

/-- The legacy `sync_handler` (`src/server/src/sync.rs:222`). -/
def sync_handler (st : LegacyState) (request : SyncRequest) (now : Int) :
    Except AppError SyncResponse × LegacyState :=
  match legacyValidateAll request.operations with
  | Except.error e => (Except.error e, st)
  | Except.ok () =>
    let (_server_clock, clock1) := st.clock.update request.clock
    match legacyProcessOps st.db st.doc clock1 request.device_id
        request.operations now with
    | (Except.error e, db', doc') =>
      (Except.error e, { clock := clock1, db := db', doc := doc' })
    | (Except.ok (), db', doc') =>
      let response_operations :=
        match request.since_clock with
        | some since_clock =>
          get_operations_since db' since_clock request.device_id
        | none => get_recent_operations db' 100 request.device_id
      let current_clock := clock1.current
      (Except.ok { clock := current_clock, operations := response_operations },
        { clock := clock1, db := db', doc := doc' })

/-! ## Bootstrap (`ServerBootstrap::initialize_crdt_manager`,
`src/server/src/startup.rs:30`). -/

/-- Returns the restored Lamport clock and default document: a fresh
clock at 1 on an empty log, otherwise `max_clock + 1` with a full replay. -/
def initialize_crdt_manager (db : List OpRow) (node_id : Nat) :
    LamportClock × CrdtDocument :=
  let max_clock := SqliteOperationRepository.get_max_clock db
  if 0 < max_clock then
    (LamportClock.with_initial_value node_id (max_clock + 1),
      restore_from_operations CrdtDocument.new
        (SqliteOperationRepository.get_all db))
  else
    (LamportClock.new node_id, CrdtDocument.new)

/-- The rows appended by a successful service store loop that starts ticking
at `clock_value`: row `i` is stored at assigned clock `clock_value + i`. -/
def batchRows (clock_value : Nat) (device_id : Str)
    (operations : List CrdtOperation) (now : Int) : List OpRow :=
  match operations with
  | [] => []
  | operation :: rest =>
    mkStoredRow clock_value device_id operation now ::
      batchRows (clock_value + 1) device_id rest now

/-! ## Auth middleware (`src/server/src/auth.rs`). The header value of the
configured header is passed in already looked up; a header whose bytes are
not valid visible text (`to_str()` failure) is modelled as an absent
header, as in the source's `and_then(|value| value.to_str().ok())`. -/

structure AuthConfig where
  shared_token : Str
  token_header : String
deriving DecidableEq

/-- `BEARER_PREFIX`. -/
def bearerMark : Str := "Bearer ".data

/-- `str::starts_with`. -/
def strStarts (s p : Str) : Bool := decide (s.take p.length = p)

/-- Outcome of the middleware: pass the request on (with the extracted
token) or reject with one of the three distinct errors. -/
inductive AuthResult where
  | admitted (token : Str)
  | missingToken
  | invalidFormat
  | invalidToken
deriving DecidableEq

/-- `auth_middleware` (`src/server/src/auth.rs:12`): exact, case-sensitive
match of `Bearer <shared_token>`. -/
def auth_middleware (config : AuthConfig) (auth_header : Option Str) :
    AuthResult :=
  match auth_header with
  | some auth =>
    if strStarts auth bearerMark then
      if auth.drop bearerMark.length = config.shared_token then
        AuthResult.admitted (auth.drop bearerMark.length)
      else AuthResult.invalidToken
    else AuthResult.invalidFormat
  | none => AuthResult.missingToken

/-! ## Helper lemmas -/

theorem storeLoop_ok_spec (operations : List CrdtOperation) :
    ∀ (db : List OpRow) (clock : LamportClock) (device_id : Str) (now : Int)
      (db' : List OpRow) (clock' : LamportClock),
      storeLoop db clock device_id operations now =
        (Except.ok (), db', clock') →
      db' = db ++ batchRows clock.value device_id operations now ∧
        clock' =
          { value := clock.value + operations.length,
            node_id := clock.node_id } := by
  induction operations with
  | nil =>
    intro db clock device_id now db' clock' h
    rw [storeLoop] at h
    injection h with h1 h2
    injection h2 with h2 h3
    subst h2; subst h3
    constructor
    · simp [batchRows]
    · rfl
  | cons operation rest ih =>
    intro db clock device_id now db' clock' h
    rw [storeLoop] at h
    simp only [LamportClock.tick] at h
    revert h
    unfold SqliteOperationRepository.store
    by_cases hdup :
        (db.any (fun r =>
          decide (r.id = (mkStoredRow clock.value device_id operation now).id)))
          = true
    · rw [if_pos hdup]
      intro h
      exact absurd (congrArg Prod.fst h) (by simp)
    · rw [if_neg hdup]
      intro h
      obtain ⟨hdb, hclock⟩ := ih _ _ _ _ _ _ h
      constructor
      · rw [hdb, batchRows, List.append_assoc]
        rfl
      · rw [hclock]
        show LamportClock.mk (clock.value + 1 + rest.length) clock.node_id =
          LamportClock.mk (clock.value + (operation :: rest).length)
            clock.node_id
        rw [List.length_cons]
        congr 1
        omega

theorem mem_batchRows {operations : List CrdtOperation} :
    ∀ {clock_value : Nat} {device_id : Str} {now : Int} {r : OpRow},
      r ∈ batchRows clock_value device_id operations now →
      ∃ c t, clock_value ≤ c ∧ r.id = operationId c device_id t := by
  induction operations with
  | nil => intro cv dev now r h; simp [batchRows] at h
  | cons operation rest ih =>
    intro cv dev now r h
    rw [batchRows] at h
    rcases List.mem_cons.mp h with hhead | htail
    · exact ⟨cv, operation.target_id, Nat.le_refl cv, by rw [hhead]; rfl⟩
    · obtain ⟨c, t, hc, hid⟩ := ih htail
      exact ⟨c, t, by omega, hid⟩

theorem batchRows_ids_pairwise (operations : List CrdtOperation) :
    ∀ (clock_value : Nat) (device_id : Str) (now : Int),
      List.Pairwise (fun a b => a.id ≠ b.id)
        (batchRows clock_value device_id operations now) := by
  induction operations with
  | nil => intro cv dev now; simp [batchRows]
  | cons operation rest ih =>
    intro cv dev now
    rw [batchRows]
    refine List.pairwise_cons.mpr ⟨?_, ih _ _ _⟩
    intro r hr
    obtain ⟨c, t, hc, hid⟩ := mem_batchRows hr
    show (mkStoredRow cv dev operation now).id ≠ r.id
    rw [hid]
    exact operationId_clock_inj (by omega)

theorem batchRows_clocks (operations : List CrdtOperation) :
    ∀ (clock_value : Nat) (device_id : Str) (now : Int),
      (batchRows clock_value device_id operations now).map
          (fun r => r.clock) =
        (List.range operations.length).map
          (fun i => clampToI64 (clock_value + i)) := by
  induction operations with
  | nil => intro cv dev now; simp [batchRows]
  | cons operation rest ih =>
    intro cv dev now
    rw [batchRows]
    simp only [List.map_cons, List.length_cons, List.range_succ_eq_map,
      List.map_map]
    refine List.cons_eq_cons.mpr ⟨rfl, ?_⟩
    rw [ih]
    apply List.map_congr_left
    intro i _
    simp only [Function.comp]
    congr 1
    omega

theorem sync_eq_vsr_error (s : ServerState) (config : SyncConfig)
    (request : SyncRequest) (now : Int) (e : AppError)
    (hv : validate_sync_request request = Except.error e) :
    CrdtSyncService.sync s config request now = (Except.error e, s) := by
  unfold CrdtSyncService.sync
  rw [hv]

theorem sync_eq_vo_error (s : ServerState) (config : SyncConfig)
    (request : SyncRequest) (now : Int) (e : AppError)
    (hv : validate_sync_request request = Except.ok ())
    (hvo : validate_operations config request.operations = Except.error e) :
    CrdtSyncService.sync s config request now = (Except.error e, s) := by
  unfold CrdtSyncService.sync
  rw [hv, hvo]

theorem sync_eq_sl_error (s : ServerState) (config : SyncConfig)
    (request : SyncRequest) (now : Int) (e : AppError) (db' : List OpRow)
    (clock' : LamportClock)
    (hv : validate_sync_request request = Except.ok ())
    (hvo : validate_operations config request.operations = Except.ok ())
    (hsl : storeLoop s.db
        { s.clock with value := max request.clock s.clock.value + 1 }
        request.device_id request.operations now =
      (Except.error e, db', clock')) :
    CrdtSyncService.sync s config request now =
      (Except.error e, { clock := clock', db := db' }) := by
  unfold CrdtSyncService.sync
  rw [hv, hvo]
  simp only [LamportClock.update]
  rw [hsl]

theorem sync_eq_ok (s : ServerState) (config : SyncConfig)
    (request : SyncRequest) (now : Int) (db' : List OpRow)
    (clock' : LamportClock)
    (hv : validate_sync_request request = Except.ok ())
    (hvo : validate_operations config request.operations = Except.ok ())
    (hsl : storeLoop s.db
        { s.clock with value := max request.clock s.clock.value + 1 }
        request.device_id request.operations now =
      (Except.ok (), db', clock')) :
    CrdtSyncService.sync s config request now =
      (Except.ok
          { clock := max request.clock s.clock.value + 1,
            operations := selectOutbound db' request },
        { clock := clock', db := db' }) := by
  unfold CrdtSyncService.sync
  rw [hv, hvo]
  simp only [LamportClock.update]
  rw [hsl]

theorem sync_ok_spec (s : ServerState) (config : SyncConfig)
    (request : SyncRequest) (now : Int) (resp : SyncResponse)
    (hok : (CrdtSyncService.sync s config request now).1 = Except.ok resp) :
    resp.clock = max request.clock s.clock.value + 1 ∧
      (CrdtSyncService.sync s config request now).2.db =
        s.db ++
          batchRows resp.clock request.device_id request.operations now ∧
      (CrdtSyncService.sync s config request now).2.clock.value =
        resp.clock + request.operations.length ∧
      resp.operations =
        selectOutbound ((CrdtSyncService.sync s config request now).2.db)
          request := by
  cases hv : validate_sync_request request with
  | error e =>
    rw [sync_eq_vsr_error s config request now e hv] at hok
    exact absurd hok (by simp)
  | ok u =>
    cases u
    cases hvo : validate_operations config request.operations with
    | error e =>
      rw [sync_eq_vo_error s config request now e hv hvo] at hok
      exact absurd hok (by simp)
    | ok u =>
      cases u
      rcases hsl : storeLoop s.db
          { s.clock with value := max request.clock s.clock.value + 1 }
          request.device_id request.operations now with ⟨fst, db', clock'⟩
      cases fst with
      | error e =>
        rw [sync_eq_sl_error s config request now e db' clock' hv hvo hsl]
          at hok
        exact absurd hok (by simp)
      | ok u =>
        cases u
        have heq := sync_eq_ok s config request now db' clock' hv hvo hsl
        rw [heq] at hok ⊢
        simp only [Except.ok.injEq] at hok
        obtain ⟨hdb, hclock⟩ := storeLoop_ok_spec request.operations s.db
          { s.clock with value := max request.clock s.clock.value + 1 }
          request.device_id now db' clock' hsl
        subst hok
        refine ⟨rfl, ?_, ?_, rfl⟩
        · exact hdb
        · rw [hclock]

theorem get_recent_length (db : List OpRow) (device_id : Str) (limit : Nat) :
    (SqliteOperationRepository.get_recent db device_id limit).length =
      min limit
        (db.filter (fun r => decide (r.device_id ≠ device_id))).length := by
  unfold SqliteOperationRepository.get_recent
  rw [List.length_map, List.length_reverse, List.length_take,
    (List.perm_insertionSort rowGe _).length_eq]

/-! ## Claim C1 -/

def devD1 : Str := "d1".data

def devD2 : Str := "d2".data

def sampleTabData : TabData :=
  { window_id := "w1".data, url := "https://example.com".data,
    title := "E".data, active := true, index := 0, updated_at := 0 }

/-- The persisted log after one device committed 150 `UpsertTab` operations
at clocks 1..150, each row exactly as `SqliteOperationRepository::store`
writes it. -/
def db150 : List OpRow :=
  (List.range 150).map (fun i =>
    mkStoredRow (i + 1) devD1
      (CrdtOperation.upsertTab ("t1".data) sampleTabData) 0)

/-- The initial-sync request of a second device. -/
def initialSyncReq : SyncRequest :=
  { clock := 0, device_id := devD2, since_clock := none, operations := [] }

set_option maxRecDepth 4000 in
/-- Claim C1 (code bug): with 150 operations of device d1 persisted, an
initial sync (`since_clock = none`) from device d2 through
`CrdtSyncService::sync` returns only 100 operations, not all 150 — the
service calls `get_recent(device_id, 100)` on the initial-sync path, so the
response is truncated to the 100 most recent operations. -/
theorem c1_initial_sync_truncated :
    (CrdtSyncService.sync
          { clock := { value := 151, node_id := 1 }, db := db150 }
          SyncConfig.default initialSyncReq 0).1.map
        (fun resp => resp.operations.length) =
      Except.ok 100 ∧ (100 : Nat) ≠ 150 := by
  constructor
  · rw [sync_eq_ok
      { clock := { value := 151, node_id := 1 }, db := db150 }
      SyncConfig.default initialSyncReq 0 db150
      { value := 152, node_id := 1 } rfl rfl rfl]
    show Except.ok
        ((selectOutbound db150 initialSyncReq).length) = Except.ok 100
    congr 1
  · decide

/-! ## Claims C5 and C6 -/

theorem le_get_max_clock {db : List OpRow} {r : OpRow} (hr : r ∈ db) :
    r.clock ≤ SqliteOperationRepository.get_max_clock db := by
  unfold SqliteOperationRepository.get_max_clock
  induction db with
  | nil => cases hr
  | cons a l ih =>
    rcases List.mem_cons.mp hr with hh | ht
    · rw [hh, List.foldr_cons]
      exact le_max_left _ _
    · exact Nat.le_trans (ih ht) (le_max_right _ _)

/-- Claim C5: after bootstrap the server clock starts at 1 on an empty log
(`get_max_clock() == 0`) and at `persisted_max + 1` otherwise, so the first
value `tick()` hands out is strictly greater than every persisted clock. -/
theorem c5_bootstrap_clock (db : List OpRow) (node_id : Nat) :
    (SqliteOperationRepository.get_max_clock db = 0 →
        (initialize_crdt_manager db node_id).1.value = 1) ∧
      (0 < SqliteOperationRepository.get_max_clock db →
        (initialize_crdt_manager db node_id).1.value =
          SqliteOperationRepository.get_max_clock db + 1) ∧
      ∀ r ∈ db,
        r.clock < ((initialize_crdt_manager db node_id).1.tick).1 := by
  by_cases h0 : 0 < SqliteOperationRepository.get_max_clock db
  · refine ⟨fun hz => absurd h0 (by omega), fun _ => ?_, fun r hr => ?_⟩
    · unfold initialize_crdt_manager
      rw [if_pos h0]
      rfl
    · have hle := le_get_max_clock hr
      unfold initialize_crdt_manager
      rw [if_pos h0]
      show r.clock < SqliteOperationRepository.get_max_clock db + 1
      omega
  · refine ⟨fun _ => ?_, fun hpos => absurd hpos h0, fun r hr => ?_⟩
    · unfold initialize_crdt_manager
      rw [if_neg h0]
      rfl
    · have hle := le_get_max_clock hr
      unfold initialize_crdt_manager
      rw [if_neg h0]
      show r.clock < 1
      omega

theorem c5_bootstrap_clock_witness :
    (SqliteOperationRepository.get_max_clock
        [mkStoredRow 5 devD1 (CrdtOperation.closeTab ("t1".data) 1) 0] = 0 →
      (initialize_crdt_manager
          [mkStoredRow 5 devD1 (CrdtOperation.closeTab ("t1".data) 1) 0]
          7).1.value = 1) ∧
    (0 < SqliteOperationRepository.get_max_clock
        [mkStoredRow 5 devD1 (CrdtOperation.closeTab ("t1".data) 1) 0] →
      (initialize_crdt_manager
          [mkStoredRow 5 devD1 (CrdtOperation.closeTab ("t1".data) 1) 0]
          7).1.value =
        SqliteOperationRepository.get_max_clock
          [mkStoredRow 5 devD1 (CrdtOperation.closeTab ("t1".data) 1) 0] + 1) ∧
    ∀ r ∈ [mkStoredRow 5 devD1 (CrdtOperation.closeTab ("t1".data) 1) 0],
      r.clock <
        ((initialize_crdt_manager
            [mkStoredRow 5 devD1 (CrdtOperation.closeTab ("t1".data) 1) 0]
            7).1.tick).1 :=
  c5_bootstrap_clock
    [mkStoredRow 5 devD1 (CrdtOperation.closeTab ("t1".data) 1) 0] 7

theorem get_since_filter_eq (db : List OpRow) (device_id : Str)
    (since_clock : Nat) (h : ∀ r ∈ db, r.clock ≤ i64Max) :
    db.filter (fun r =>
        decide (clampToI64 since_clock < r.clock) &&
        decide (r.device_id ≠ device_id)) =
      db.filter (fun r =>
        decide (since_clock < r.clock) &&
        decide (r.device_id ≠ device_id)) := by
  apply List.filter_congr
  intro r hr
  have hc := h r hr
  by_cases hle : since_clock ≤ i64Max
  · have : clampToI64 since_clock = since_clock := by
      unfold clampToI64
      omega
    rw [this]
  · have h1 : clampToI64 since_clock = i64Max := by
      unfold clampToI64
      omega
    have h2 : ¬ clampToI64 since_clock < r.clock := by omega
    have h3 : ¬ since_clock < r.clock := by omega
    simp [h2, h3]

/-- Claim C6: `get_since(device_id, since_clock)` returns exactly the stored
operations with `clock > since_clock` from other devices (as a permutation
of that filter of the log), sorted ascending by clock; in particular a
device never gets its own operations back. The hypothesis records the store
invariant that every persisted clock fits in `i64`. -/
theorem c6_get_since_exact (db : List OpRow) (device_id : Str)
    (since_clock : Nat) (h : ∀ r ∈ db, r.clock ≤ i64Max) :
    (SqliteOperationRepository.get_since db device_id since_clock).Perm
        ((db.filter (fun r =>
          decide (since_clock < r.clock) &&
          decide (r.device_id ≠ device_id))).map rowToStored) ∧
      List.Sorted storedLe
        (SqliteOperationRepository.get_since db device_id since_clock) ∧
      ∀ sop ∈ SqliteOperationRepository.get_since db device_id since_clock,
        sop.device_id ≠ device_id := by
  unfold SqliteOperationRepository.get_since
  rw [get_since_filter_eq db device_id since_clock h]
  refine ⟨?_, ?_, ?_⟩
  · exact (List.perm_insertionSort rowLe _).map rowToStored
  · exact List.pairwise_map.mpr (List.sorted_insertionSort rowLe _)
  · intro sop hsop
    rcases List.mem_map.mp hsop with ⟨r, hr, rfl⟩
    have hr' := (List.perm_insertionSort rowLe _).mem_iff.mp hr
    have := (List.mem_filter.mp hr').2
    simp only [Bool.and_eq_true, decide_eq_true_eq] at this
    exact this.2

theorem c6_get_since_exact_witness :
    (∀ r ∈ [mkStoredRow 1 devD1 (CrdtOperation.closeTab ("t1".data) 1) 0,
        mkStoredRow 2 devD2 (CrdtOperation.closeTab ("t2".data) 2) 0],
      r.clock ≤ i64Max) ∧
    ((SqliteOperationRepository.get_since
        [mkStoredRow 1 devD1 (CrdtOperation.closeTab ("t1".data) 1) 0,
          mkStoredRow 2 devD2 (CrdtOperation.closeTab ("t2".data) 2) 0]
        devD1 0).Perm
      (([mkStoredRow 1 devD1 (CrdtOperation.closeTab ("t1".data) 1) 0,
          mkStoredRow 2 devD2 (CrdtOperation.closeTab ("t2".data) 2) 0].filter
        (fun r =>
          decide (0 < r.clock) && decide (r.device_id ≠ devD1))).map
        rowToStored) ∧
      List.Sorted storedLe
        (SqliteOperationRepository.get_since
          [mkStoredRow 1 devD1 (CrdtOperation.closeTab ("t1".data) 1) 0,
            mkStoredRow 2 devD2 (CrdtOperation.closeTab ("t2".data) 2) 0]
          devD1 0) ∧
      ∀ sop ∈ SqliteOperationRepository.get_since
          [mkStoredRow 1 devD1 (CrdtOperation.closeTab ("t1".data) 1) 0,
            mkStoredRow 2 devD2 (CrdtOperation.closeTab ("t2".data) 2) 0]
          devD1 0,
        sop.device_id ≠ devD1) := by
  refine ⟨?_, ?_⟩
  · decide
  · exact c6_get_since_exact _ devD1 0 (by decide)

/-! ## Claims C2 and C3 -/

/-- Claim C2, amended to the service path (`CrdtSyncService::sync`, the
handler wired in `main.rs`): a successful sync appends exactly the batch
rows whose assigned clocks are `resp.clock, resp.clock + 1, ...` — fresh
`tick()` values, strictly increasing within the batch — and whose synthetic
`{clock}_{device_id}_{target_id}` ids are pairwise distinct. The legacy
`sync_handler` in `sync.rs` violates this (see the counterexample): it
assigns `current_clock()` without ticking. -/
theorem c2_service_fresh_clocks (s : ServerState) (config : SyncConfig)
    (request : SyncRequest) (now : Int) (resp : SyncResponse)
    (hok : (CrdtSyncService.sync s config request now).1 = Except.ok resp) :
    (CrdtSyncService.sync s config request now).2.db =
        s.db ++ batchRows resp.clock request.device_id request.operations now ∧
      List.Pairwise (fun a b => a < b)
        ((List.range request.operations.length).map
          (fun i => resp.clock + i)) ∧
      List.Pairwise (fun a b => a.id ≠ b.id)
        (batchRows resp.clock request.device_id request.operations now) := by
  obtain ⟨_, hdb, _, _⟩ := sync_ok_spec s config request now resp hok
  refine ⟨hdb, ?_, batchRows_ids_pairwise _ _ _ _⟩
  refine List.pairwise_map.mpr ?_
  exact (List.pairwise_lt_range _).imp (fun h => by omega)

def c2state : ServerState := { clock := { value := 1, node_id := 1 }, db := [] }

def c2req : SyncRequest :=
  { clock := 0, device_id := "d".data, since_clock := none,
    operations := [CrdtOperation.closeTab ("t1".data) 1,
      CrdtOperation.closeTab ("t2".data) 2] }

theorem c2_service_fresh_clocks_witness :
    (CrdtSyncService.sync c2state SyncConfig.default c2req 0).1 =
        Except.ok { clock := 2, operations := [] } ∧
      ((CrdtSyncService.sync c2state SyncConfig.default c2req 0).2.db =
          c2state.db ++
            batchRows (SyncResponse.clock { clock := 2, operations := [] })
              c2req.device_id c2req.operations 0 ∧
        List.Pairwise (fun a b => a < b)
          ((List.range c2req.operations.length).map
            (fun i => SyncResponse.clock { clock := 2, operations := [] } + i)) ∧
        List.Pairwise (fun a b => a.id ≠ b.id)
          (batchRows (SyncResponse.clock { clock := 2, operations := [] })
            c2req.device_id c2req.operations 0)) :=
  ⟨rfl, c2_service_fresh_clocks c2state SyncConfig.default c2req 0
    { clock := 2, operations := [] } rfl⟩

def c2LegacyState : LegacyState :=
  { clock := { value := 1, node_id := 1 }, db := [], doc := CrdtDocument.new }

def c2reqSameTarget : SyncRequest :=
  { clock := 0, device_id := "d".data, since_clock := none,
    operations := [CrdtOperation.closeTab ("t1".data) 1,
      CrdtOperation.closeTab ("t1".data) 2] }

/-- Claim C2 counterexample: the legacy `sync_handler` (`sync.rs:222`,
wired by `tanaka_server::create_app`) assigns `current_clock()` to every
operation of a batch without ticking: a two-operation batch stores clocks
`[2, 2]` (not strictly increasing), and when the two operations share a
target id the second INSERT hits the duplicate-id hard error. -/
theorem c2_legacy_same_clock :
    ((sync_handler c2LegacyState c2req 0).2.db.map (fun r => r.clock) =
        [2, 2]) ∧
      ¬ (2 : Nat) < 2 ∧
      (sync_handler c2LegacyState c2reqSameTarget 0).1 =
        Except.error (AppError.database msgStoreFailed) :=
  ⟨rfl, by decide, rfl⟩

def c3state : ServerState := { clock := { value := 1, node_id := 1 }, db := [] }

def c3req : SyncRequest :=
  { clock := 0, device_id := "d".data, since_clock := none,
    operations := [CrdtOperation.closeTab ("t1".data) 1,
      CrdtOperation.closeTab ("t2".data) 2] }

/-- Claim C3 counterexample: `CrdtSyncService::sync` captures
`server_clock = update_clock(request.clock)` before storing and returns it
as the response clock. With two inbound operations the response clock is 2
while the assigned clocks are 2 and 3 and the server clock after processing
is 4: the response clock neither equals the post-processing clock nor
dominates every assigned clock. -/
theorem c3_response_clock_stale :
    (CrdtSyncService.sync c3state SyncConfig.default c3req 0).1 =
        Except.ok { clock := 2, operations := [] } ∧
      (CrdtSyncService.sync c3state SyncConfig.default c3req 0).2.clock.value
          = 4 ∧
      (CrdtSyncService.sync c3state SyncConfig.default c3req 0).2.db.map
          (fun r => r.clock) = [2, 3] ∧
      (2 : Nat) ≠ 4 ∧ ¬ (3 : Nat) ≤ 2 :=
  ⟨rfl, rfl, rfl, by decide, by decide⟩

/-- Claim C3, amended: the response clock of a successful
`CrdtSyncService::sync` equals `update(request.clock)` taken *before* the
batch is stored; the server clock after processing equals
`resp.clock + n`, and the rows stored for the batch carry the assigned
clocks `resp.clock, ..., resp.clock + n - 1`, every one of them ≥ the
response clock. -/
theorem c3_response_clock_spec (s : ServerState) (config : SyncConfig)
    (request : SyncRequest) (now : Int) (resp : SyncResponse)
    (hok : (CrdtSyncService.sync s config request now).1 = Except.ok resp) :
    resp.clock = max request.clock s.clock.value + 1 ∧
      (CrdtSyncService.sync s config request now).2.clock.value =
        resp.clock + request.operations.length ∧
      (CrdtSyncService.sync s config request now).2.db =
        s.db ++ batchRows resp.clock request.device_id request.operations now := by
  obtain ⟨hc, hdb, hcl, _⟩ := sync_ok_spec s config request now resp hok
  exact ⟨hc, hcl, hdb⟩

theorem c3_response_clock_spec_witness :
    (CrdtSyncService.sync c3state SyncConfig.default c3req 0).1 =
        Except.ok { clock := 2, operations := [] } ∧
      (SyncResponse.clock { clock := 2, operations := [] } =
          max c3req.clock c3state.clock.value + 1 ∧
        (CrdtSyncService.sync c3state SyncConfig.default c3req 0).2.clock.value
            = SyncResponse.clock { clock := 2, operations := [] } +
              c3req.operations.length ∧
        (CrdtSyncService.sync c3state SyncConfig.default c3req 0).2.db =
          c3state.db ++
            batchRows (SyncResponse.clock { clock := 2, operations := [] })
              c3req.device_id c3req.operations 0) :=
  ⟨rfl, c3_response_clock_spec c3state SyncConfig.default c3req 0
    { clock := 2, operations := [] } rfl⟩

/-! ## Claim C7 -/

theorem vsr_error_shape (request : SyncRequest) (e : AppError)
    (h : validate_sync_request request = Except.error e) :
    ∃ m f, e = AppError.validation m (some f) := by
  unfold validate_sync_request at h
  split_ifs at h with h1 h2 h3 h4 h5
  · injection h with hx; exact ⟨msgDeviceIdEmpty, fldDeviceId, hx.symm⟩
  · injection h with hx; exact ⟨msgDeviceIdTooLong, fldDeviceId, hx.symm⟩
  · injection h with hx; exact ⟨msgDeviceIdInvalid, fldDeviceId, hx.symm⟩
  · injection h with hx; exact ⟨msgSinceClockGreater, fldSinceClock, hx.symm⟩
  · injection h with hx; exact ⟨msgTooManyOps, fldOperations, hx.symm⟩

theorem vsr_ok_implies (request : SyncRequest)
    (h : validate_sync_request request = Except.ok ()) :
    request.device_id ≠ [] ∧ request.device_id.length ≤ 128 ∧
      request.device_id ≠ sentinelDeviceId ∧
      (∀ sc, request.since_clock = some sc → sc ≤ request.clock) ∧
      request.operations.length ≤ 1000 := by
  unfold validate_sync_request at h
  split_ifs at h with h1 h2 h3 h4 h5
  refine ⟨h1, by omega, h3, fun sc hsc => ?_, by omega⟩
  rw [hsc] at h4
  simp only [Option.any_some, decide_eq_true_eq] at h4
  omega

theorem vone_error_of_empty_target (config : SyncConfig)
    (operation : CrdtOperation) (h : operation.target_id = []) :
    ∃ m f, validate_one_operation config operation =
      Except.error (AppError.validation m (some f)) := by
  cases operation with
  | upsertTab id data =>
    refine ⟨msgTabIdEmpty, fldId, ?_⟩
    simp only [CrdtOperation.target_id] at h
    simp only [validate_one_operation]
    rw [if_pos h]
  | closeTab id closed_at =>
    refine ⟨msgTabIdEmpty, fldId, ?_⟩
    simp only [CrdtOperation.target_id] at h
    simp only [validate_one_operation]
    rw [if_pos h]
  | setActive id active updated_at =>
    refine ⟨msgTabIdEmpty, fldId, ?_⟩
    simp only [CrdtOperation.target_id] at h
    simp only [validate_one_operation]
    rw [if_pos h]
  | moveTab id window_id index updated_at =>
    refine ⟨msgTabIdEmpty, fldId, ?_⟩
    simp only [CrdtOperation.target_id] at h
    simp only [validate_one_operation]
    rw [if_pos h]
  | changeUrl id url title updated_at =>
    refine ⟨msgTabIdEmpty, fldId, ?_⟩
    simp only [CrdtOperation.target_id] at h
    simp only [validate_one_operation]
    rw [if_pos h]
  | trackWindow id tracked updated_at =>
    refine ⟨msgWindowIdEmpty, fldId, ?_⟩
    simp only [CrdtOperation.target_id] at h
    simp only [validate_one_operation]
    rw [if_pos h]
  | untrackWindow id updated_at =>
    refine ⟨msgWindowIdEmpty, fldId, ?_⟩
    simp only [CrdtOperation.target_id] at h
    simp only [validate_one_operation]
    rw [if_pos h]
  | setWindowFocus id focused updated_at =>
    refine ⟨msgWindowIdEmpty, fldId, ?_⟩
    simp only [CrdtOperation.target_id] at h
    simp only [validate_one_operation]
    rw [if_pos h]

theorem vone_shape (config : SyncConfig) (operation : CrdtOperation) :
    validate_one_operation config operation = Except.ok () ∨
      ∃ m f, validate_one_operation config operation =
        Except.error (AppError.validation m (some f)) := by
  cases operation with
  | upsertTab id data =>
    simp only [validate_one_operation]
    split_ifs
    · exact Or.inr ⟨msgTabIdEmpty, fldId, rfl⟩
    · exact Or.inr ⟨msgTabIdTooLong, fldId, rfl⟩
    · exact Or.inr ⟨msgTabUrlEmpty, fldUrl, rfl⟩
    · exact Or.inr ⟨msgUrlTooLong, fldUrl, rfl⟩
    · exact Or.inr ⟨msgTitleTooLong, fldTitle, rfl⟩
    · exact Or.inr ⟨msgWindowIdEmpty, fldWindowId, rfl⟩
    · exact Or.inl rfl
  | closeTab id closed_at =>
    simp only [validate_one_operation]
    split_ifs
    · exact Or.inr ⟨msgTabIdEmpty, fldId, rfl⟩
    · exact Or.inl rfl
  | setActive id active updated_at =>
    simp only [validate_one_operation]
    split_ifs
    · exact Or.inr ⟨msgTabIdEmpty, fldId, rfl⟩
    · exact Or.inl rfl
  | moveTab id window_id index updated_at =>
    simp only [validate_one_operation]
    split_ifs
    · exact Or.inr ⟨msgTabIdEmpty, fldId, rfl⟩
    · exact Or.inr ⟨msgWindowIdEmpty, fldWindowId, rfl⟩
    · exact Or.inl rfl
  | changeUrl id url title updated_at =>
    simp only [validate_one_operation]
    split_ifs
    · exact Or.inr ⟨msgTabIdEmpty, fldId, rfl⟩
    · exact Or.inr ⟨msgUrlEmpty, fldUrl, rfl⟩
    · exact Or.inr ⟨msgUrlTooLong, fldUrl, rfl⟩
    · exact Or.inl rfl
  | trackWindow id tracked updated_at =>
    simp only [validate_one_operation]
    split_ifs
    · exact Or.inr ⟨msgWindowIdEmpty, fldId, rfl⟩
    · exact Or.inl rfl
  | untrackWindow id updated_at =>
    simp only [validate_one_operation]
    split_ifs
    · exact Or.inr ⟨msgWindowIdEmpty, fldId, rfl⟩
    · exact Or.inl rfl
  | setWindowFocus id focused updated_at =>
    simp only [validate_one_operation]
    split_ifs
    · exact Or.inr ⟨msgWindowIdEmpty, fldId, rfl⟩
    · exact Or.inl rfl

theorem vo_error_of_empty_target (config : SyncConfig)
    (operations : List CrdtOperation)
    (h : ∃ op ∈ operations, op.target_id = []) :
    ∃ m f, validate_operations config operations =
      Except.error (AppError.validation m (some f)) := by
  induction operations with
  | nil => rcases h with ⟨op, hmem, _⟩; cases hmem
  | cons operation rest ih =>
    rcases h with ⟨op, hmem, htgt⟩
    rcases List.mem_cons.mp hmem with heq | hrest
    · subst heq
      obtain ⟨m, f, he⟩ := vone_error_of_empty_target config op htgt
      refine ⟨m, f, ?_⟩
      simp only [validate_operations]
      rw [he]
    · rcases vone_shape config operation with hok | ⟨m, f, he⟩
      · obtain ⟨m, f, he⟩ := ih ⟨op, hrest, htgt⟩
        refine ⟨m, f, ?_⟩
        simp only [validate_operations]
        rw [hok]
        exact he
      · refine ⟨m, f, ?_⟩
        simp only [validate_operations]
        rw [he]

/-- Claim C7, amended: `CrdtSyncService::sync` rejects the request with a
validation error naming a field and persists nothing whenever the device_id
is empty, longer than 128 chars or the sentinel `auth-validated`; when
`since_clock > clock`; when more than 1000 operations are sent; or when any
operation's target id is *empty*. (The 256-character bound on target ids is
enforced only for `UpsertTab` — see the counterexample — so it is dropped
from the common rule.) -/
theorem c7_validation_rejects (s : ServerState) (config : SyncConfig)
    (request : SyncRequest) (now : Int)
    (h : request.device_id = [] ∨ 128 < request.device_id.length ∨
      request.device_id = sentinelDeviceId ∨
      (∃ sc, request.since_clock = some sc ∧ request.clock < sc) ∨
      1000 < request.operations.length ∨
      (∃ op ∈ request.operations, op.target_id = [])) :
    (∃ m f, (CrdtSyncService.sync s config request now).1 =
        Except.error (AppError.validation m (some f))) ∧
      (CrdtSyncService.sync s config request now).2 = s := by
  cases hv : validate_sync_request request with
  | error e =>
    obtain ⟨m, f, hef⟩ := vsr_error_shape request e hv
    rw [sync_eq_vsr_error s config request now e hv]
    exact ⟨⟨m, f, by rw [hef]⟩, rfl⟩
  | ok u =>
    cases u
    obtain ⟨hne, hlen, hsent, hsince, hcount⟩ := vsr_ok_implies request hv
    have hop : ∃ op ∈ request.operations, op.target_id = [] := by
      rcases h with h | h | h | ⟨sc, hsc, hlt⟩ | h | h
      · exact absurd h hne
      · omega
      · exact absurd h hsent
      · exact absurd (hsince sc hsc) (by omega)
      · omega
      · exact h
    obtain ⟨m, f, hvo⟩ := vo_error_of_empty_target config
      request.operations hop
    rw [sync_eq_vo_error s config request now _ hv hvo]
    exact ⟨⟨m, f, rfl⟩, rfl⟩

def c7state : ServerState := { clock := { value := 1, node_id := 1 }, db := [] }

def c7emptyDeviceReq : SyncRequest :=
  { clock := 0, device_id := [], since_clock := none, operations := [] }

theorem c7_validation_rejects_witness :
    (c7emptyDeviceReq.device_id = [] ∨
        128 < c7emptyDeviceReq.device_id.length ∨
        c7emptyDeviceReq.device_id = sentinelDeviceId ∨
        (∃ sc, c7emptyDeviceReq.since_clock = some sc ∧
          c7emptyDeviceReq.clock < sc) ∨
        1000 < c7emptyDeviceReq.operations.length ∨
        (∃ op ∈ c7emptyDeviceReq.operations, op.target_id = [])) ∧
      ((∃ m f,
          (CrdtSyncService.sync c7state SyncConfig.default c7emptyDeviceReq
              0).1 = Except.error (AppError.validation m (some f))) ∧
        (CrdtSyncService.sync c7state SyncConfig.default c7emptyDeviceReq
            0).2 = c7state) :=
  ⟨Or.inl rfl,
    c7_validation_rejects c7state SyncConfig.default c7emptyDeviceReq 0
      (Or.inl rfl)⟩

def c7LongTarget : Str := List.replicate 257 'a'

def c7LongTargetReq : SyncRequest :=
  { clock := 0, device_id := "d".data, since_clock := none,
    operations := [CrdtOperation.closeTab c7LongTarget 1] }

set_option maxRecDepth 10000 in
/-- Claim C7 counterexample: a `CloseTab` whose target id has 257 characters
passes validation — the 256-char bound is checked only for `UpsertTab` — so
the sync is accepted and the operation is persisted, against the claim that
any over-long target id is rejected with nothing persisted. -/
theorem c7_long_target_accepted :
    256 < c7LongTarget.length ∧
      (CrdtSyncService.sync c7state SyncConfig.default c7LongTargetReq 0).1 =
        Except.ok { clock := 2, operations := [] } ∧
      (CrdtSyncService.sync c7state SyncConfig.default c7LongTargetReq
          0).2.db.length = 1 :=
  ⟨by decide, rfl, rfl⟩

/-! ## Claim C8 -/

/-- Claim C8: the auth middleware admits a request iff the configured header
is present and literally equal to `Bearer ` followed by the shared token
(case-sensitive, exact); a missing header yields the missing-token error, a
present header without the exact `Bearer ` prefix (e.g. `bearer ` or
`Basic `) yields the invalid-format error, and a well-prefixed header whose
remainder differs from the token yields the invalid-token error. -/
theorem c8_auth_exact (config : AuthConfig) (auth_header : Option Str) :
    ((∃ t, auth_middleware config auth_header = AuthResult.admitted t) ↔
        auth_header = some (bearerMark ++ config.shared_token)) ∧
      (auth_header = none →
        auth_middleware config auth_header = AuthResult.missingToken) ∧
      (∀ s, auth_header = some s → strStarts s bearerMark = false →
        auth_middleware config auth_header = AuthResult.invalidFormat) ∧
      (∀ s, auth_header = some s → strStarts s bearerMark = true →
        s.drop bearerMark.length ≠ config.shared_token →
        auth_middleware config auth_header = AuthResult.invalidToken) := by
  refine ⟨⟨?_, ?_⟩, ?_, ?_, ?_⟩
  · rintro ⟨t, ht⟩
    cases hh : auth_header with
    | none =>
      rw [hh] at ht
      simp only [auth_middleware] at ht
      exact AuthResult.noConfusion ht
    | some s =>
      rw [hh] at ht
      simp only [auth_middleware] at ht
      by_cases hst : strStarts s bearerMark = true
      · rw [if_pos hst] at ht
        by_cases htok : s.drop bearerMark.length = config.shared_token
        · have hTake : s.take bearerMark.length = bearerMark := by
            unfold strStarts at hst
            exact of_decide_eq_true hst
          have : s = bearerMark ++ config.shared_token := by
            conv_lhs => rw [← List.take_append_drop bearerMark.length s]
            rw [hTake, htok]
          rw [this]
        · rw [if_neg htok] at ht
          exact AuthResult.noConfusion ht
      · rw [if_neg hst] at ht
        exact AuthResult.noConfusion ht
  · intro hh
    rw [hh]
    refine ⟨config.shared_token, ?_⟩
    simp only [auth_middleware]
    have hst : strStarts (bearerMark ++ config.shared_token) bearerMark
        = true := by
      unfold strStarts
      rw [List.take_left]
      simp
    rw [if_pos hst]
    simp only [List.drop_left]
    simp
  · intro hh
    rw [hh]
    rfl
  · intro s hh hst
    rw [hh]
    simp only [auth_middleware]
    rw [if_neg (by rw [hst]; exact Bool.false_ne_true)]
  · intro s hh hst htok
    rw [hh]
    simp only [auth_middleware]
    rw [if_pos hst, if_neg htok]

theorem c8_auth_exact_witness :
    ((∃ t, auth_middleware
          { shared_token := "secret".data, token_header := "authorization" }
          (some (bearerMark ++ "secret".data)) = AuthResult.admitted t) ↔
        some (bearerMark ++ "secret".data) =
          some (bearerMark ++
            AuthConfig.shared_token
              { shared_token := "secret".data,
                token_header := "authorization" })) ∧
      (some (bearerMark ++ "secret".data) = none →
        auth_middleware
          { shared_token := "secret".data, token_header := "authorization" }
          (some (bearerMark ++ "secret".data)) = AuthResult.missingToken) ∧
      (∀ s, some (bearerMark ++ "secret".data) = some s →
        strStarts s bearerMark = false →
        auth_middleware
          { shared_token := "secret".data, token_header := "authorization" }
          (some (bearerMark ++ "secret".data)) = AuthResult.invalidFormat) ∧
      (∀ s, some (bearerMark ++ "secret".data) = some s →
        strStarts s bearerMark = true →
        s.drop bearerMark.length ≠
          AuthConfig.shared_token
            { shared_token := "secret".data,
              token_header := "authorization" } →
        auth_middleware
          { shared_token := "secret".data, token_header := "authorization" }
          (some (bearerMark ++ "secret".data)) = AuthResult.invalidToken) :=
  c8_auth_exact
    { shared_token := "secret".data, token_header := "authorization" }
    (some (bearerMark ++ "secret".data))

/-! ## Claim C10 -/

/-- Claim C10: clocks below `2^63` survive the store/read round-trip
unchanged (`store` then `get_max_clock`, `get_all`, `get_since`), while any
clock ≥ `2^63` is silently clamped to `i64::MAX` by the store, so distinct
assigned clocks collide in storage and their order is lost. -/
theorem c10_clock_clamp (c1 c2 : Nat) (op : CrdtOperation) (d1 d2 : Str)
    (now : Int) (h1 : 0 < c1) (h2 : c1 < 2 ^ 63) (h3 : 2 ^ 63 ≤ c2)
    (hd : d1 ≠ d2) :
    SqliteOperationRepository.store [] op c1 d1 now =
        Except.ok [mkStoredRow c1 d1 op now] ∧
      SqliteOperationRepository.get_max_clock [mkStoredRow c1 d1 op now]
          = c1 ∧
      (SqliteOperationRepository.get_all [mkStoredRow c1 d1 op now]).map
          (fun sop => sop.clock) = [c1] ∧
      (SqliteOperationRepository.get_since [mkStoredRow c1 d1 op now] d2
          0).map (fun sop => sop.clock) = [c1] ∧
      (mkStoredRow c2 d1 op now).clock = i64Max ∧
      clampToI64 (2 ^ 63) = clampToI64 (2 ^ 63 + 1) ∧
      (2 ^ 63 : Nat) ≠ 2 ^ 63 + 1 ∧
      ¬ clampToI64 (2 ^ 63) < clampToI64 (2 ^ 63 + 1) := by
  have hpow : (2 : Nat) ^ 63 = 9223372036854775808 := by norm_num
  have hI : i64Max = 9223372036854775807 := by
    unfold i64Max
    omega
  have hc : clampToI64 c1 = c1 := by
    unfold clampToI64
    omega
  refine ⟨?_, ?_, ?_, ?_, ?_, ?_, ?_, ?_⟩
  · unfold SqliteOperationRepository.store
    rw [if_neg (by simp)]
    rfl
  · show max (mkStoredRow c1 d1 op now).clock 0 =  c1
    show max (clampToI64 c1) 0 = c1
    omega
  · unfold SqliteOperationRepository.get_all
    simp only [List.insertionSort, List.orderedInsert, List.map_cons,
      List.map_nil]
    show [(mkStoredRow c1 d1 op now).clock] = [c1]
    rw [show (mkStoredRow c1 d1 op now).clock = clampToI64 c1 from rfl, hc]
  · unfold SqliteOperationRepository.get_since
    have hpred : (decide (clampToI64 0 < (mkStoredRow c1 d1 op now).clock) &&
        decide ((mkStoredRow c1 d1 op now).device_id ≠ d2)) = true := by
      have h0 : clampToI64 0 = 0 := by unfold clampToI64; omega
      have hlt : clampToI64 0 < (mkStoredRow c1 d1 op now).clock := by
        show clampToI64 0 < clampToI64 c1
        omega
      have hne : (mkStoredRow c1 d1 op now).device_id ≠ d2 := hd
      simp [hlt, hne]
    simp only [List.filter, hpred, List.insertionSort, List.orderedInsert,
      List.map_cons, List.map_nil]
    show [(rowToStored (mkStoredRow c1 d1 op now)).clock] = [c1]
    rw [show (rowToStored (mkStoredRow c1 d1 op now)).clock =
      clampToI64 c1 from rfl, hc]
  · show clampToI64 c2 = i64Max
    unfold clampToI64
    omega
  · unfold clampToI64
    omega
  · omega
  · unfold clampToI64
    omega

theorem c10_clock_clamp_witness :
    ((0 : Nat) < 5 ∧ (5 : Nat) < 2 ^ 63 ∧ (2 : Nat) ^ 63 ≤ 2 ^ 63 ∧
      ("a".data : Str) ≠ "b".data) ∧
    (SqliteOperationRepository.store []
          (CrdtOperation.closeTab ("t".data) 0) 5 ("a".data) 0 =
        Except.ok
          [mkStoredRow 5 ("a".data) (CrdtOperation.closeTab ("t".data) 0) 0] ∧
      SqliteOperationRepository.get_max_clock
          [mkStoredRow 5 ("a".data) (CrdtOperation.closeTab ("t".data) 0) 0]
          = 5 ∧
      (SqliteOperationRepository.get_all
          [mkStoredRow 5 ("a".data)
            (CrdtOperation.closeTab ("t".data) 0) 0]).map
          (fun sop => sop.clock) = [5] ∧
      (SqliteOperationRepository.get_since
          [mkStoredRow 5 ("a".data) (CrdtOperation.closeTab ("t".data) 0) 0]
          ("b".data) 0).map (fun sop => sop.clock) = [5] ∧
      (mkStoredRow (2 ^ 63) ("a".data)
          (CrdtOperation.closeTab ("t".data) 0) 0).clock = i64Max ∧
      clampToI64 (2 ^ 63) = clampToI64 (2 ^ 63 + 1) ∧
      (2 ^ 63 : Nat) ≠ 2 ^ 63 + 1 ∧
      ¬ clampToI64 (2 ^ 63) < clampToI64 (2 ^ 63 + 1)) :=
  ⟨⟨by decide, by decide, Nat.le_refl _, by decide⟩,
    c10_clock_clamp 5 (2 ^ 63) (CrdtOperation.closeTab ("t".data) 0)
      ("a".data) ("b".data) 0 (by decide) (by decide) (Nat.le_refl _)
      (by decide)⟩

/-! ## Claim C9: replay idempotence.

Each operation touches only the map entry of its own target, so the effect
of a replay factors through per-key step functions; every step is either
constant in the previous value (`UpsertTab`, `CloseTab`, `TrackWindow` on
the matching key) or maps an absent entry to an absent entry, which makes a
double replay of the whole log collapse to a single one. -/

theorem foldl_indep {τ A : Type} (step : τ → A → τ) :
    ∀ L : List A, (∃ a ∈ L, ∀ s s', step s a = step s' a) →
      ∀ s s', L.foldl step s = L.foldl step s' := by
  intro L
  induction L with
  | nil => rintro ⟨a, ha, _⟩; cases ha
  | cons a L ih =>
    rintro ⟨b, hb, hbconst⟩ s s'
    simp only [List.foldl_cons]
    by_cases hac : ∀ s s', step s a = step s' a
    · rw [hac s s']
    · rcases List.mem_cons.mp hb with hba | hbL
      · exact absurd (hba ▸ hbconst) hac
      · exact ih ⟨b, hbL, hbconst⟩ _ _

theorem foldl_bot {τ A : Type} (step : τ → A → τ) (bot : τ) :
    ∀ L : List A, (∀ a ∈ L, step bot a = bot) →
      L.foldl step bot = bot := by
  intro L
  induction L with
  | nil => intro _; rfl
  | cons a L ih =>
    intro h
    simp only [List.foldl_cons, h a (List.mem_cons_self a L)]
    exact ih fun b hb => h b (List.mem_cons_of_mem a hb)

theorem foldl_twice_eq {τ A : Type} (step : τ → A → τ) (bot : τ)
    (hstep : ∀ a, (∀ s s', step s a = step s' a) ∨ step bot a = bot)
    (L : List A) :
    L.foldl step (L.foldl step bot) = L.foldl step bot := by
  by_cases hex : ∃ a ∈ L, ∀ s s', step s a = step s' a
  · exact foldl_indep step L hex _ _
  · have hb := foldl_bot step bot L
      (fun a ha => (hstep a).resolve_left (fun hconst => hex ⟨a, ha, hconst⟩))
    rw [hb]
    exact hb

/-- The per-key effect of one replayed operation on the tabs map. -/
def tabKeyStep (k : Str) (s : Option CrdtTab) (stored_op : StoredOperation) :
    Option CrdtTab :=
  let clock := stored_op.clock
  match stored_op.operation with
  | .upsertTab id data =>
    if k = id then
      some
        { id := id, window_id := data.window_id, url := data.url,
          title := data.title, active := data.active, index := data.index,
          updated_at := clock }
    else s
  | .closeTab id _ => if k = id then none else s
  | .setActive id active _ =>
    if k = id then
      match s with
      | some t => some { t with id := id, active := active, updated_at := clock }
      | none => none
    else s
  | .moveTab id window_id index _ =>
    if k = id then
      match s with
      | some t =>
        some
          { t with
            id := id, window_id := window_id, index := index,
            updated_at := clock }
      | none => none
    else s
  | .changeUrl id url title _ =>
    if k = id then
      match s with
      | some t =>
        some
          { t with
            id := id, url := url,
            title := (match title with | some new_title => new_title | none => t.title),
            updated_at := clock }
      | none => none
    else s
  | .trackWindow _ _ _ => s
  | .untrackWindow _ _ => s
  | .setWindowFocus _ _ _ => s

/-- The per-key effect of one replayed operation on the windows map. -/
def winKeyStep (k : Str) (s : Option CrdtWindow)
    (stored_op : StoredOperation) : Option CrdtWindow :=
  let clock := stored_op.clock
  match stored_op.operation with
  | .upsertTab _ _ => s
  | .closeTab _ _ => s
  | .setActive _ _ _ => s
  | .moveTab _ _ _ _ => s
  | .changeUrl _ _ _ _ => s
  | .trackWindow id _ _ =>
    if k = id then
      some { id := id, tracked := true, tab_count := 0, updated_at := clock }
    else s
  | .untrackWindow id _ =>
    if k = id then
      match s with
      | some w => some { w with id := id, tracked := false, updated_at := clock }
      | none => none
    else s
  | .setWindowFocus id _ _ =>
    if k = id then
      match s with
      | some w => some { w with id := id, updated_at := clock }
      | none => none
    else s

theorem restoreApplyOp_tabs (doc : CrdtDocument) (sop : StoredOperation)
    (k : Str) :
    (restoreApplyOp doc sop).tabs k = tabKeyStep k (doc.tabs k) sop := by
  cases hop : sop.operation with
  | upsertTab id data =>
    simp only [restoreApplyOp, tabKeyStep, hop, CrdtDocument.upsert_tab]
  | closeTab id closed_at =>
    simp only [restoreApplyOp, tabKeyStep, hop, CrdtDocument.remove_tab]
  | setActive id active updated_at =>
    simp only [restoreApplyOp, tabKeyStep, hop, CrdtDocument.find_tab]
    by_cases hk : k = id
    · subst hk
      cases hdt : doc.tabs k with
      | none => simp [hdt]
      | some t => simp [hdt, CrdtDocument.upsert_tab]
    · cases hdt : doc.tabs id with
      | none => simp [hdt, hk]
      | some t => simp [hdt, hk, CrdtDocument.upsert_tab]
  | moveTab id window_id index updated_at =>
    simp only [restoreApplyOp, tabKeyStep, hop, CrdtDocument.find_tab]
    by_cases hk : k = id
    · subst hk
      cases hdt : doc.tabs k with
      | none => simp [hdt]
      | some t => simp [hdt, CrdtDocument.upsert_tab]
    · cases hdt : doc.tabs id with
      | none => simp [hdt, hk]
      | some t => simp [hdt, hk, CrdtDocument.upsert_tab]
  | changeUrl id url title updated_at =>
    simp only [restoreApplyOp, tabKeyStep, hop, CrdtDocument.find_tab]
    by_cases hk : k = id
    · subst hk
      cases hdt : doc.tabs k with
      | none => simp [hdt]
      | some t => simp [hdt, CrdtDocument.upsert_tab]
    · cases hdt : doc.tabs id with
      | none => simp [hdt, hk]
      | some t => simp [hdt, hk, CrdtDocument.upsert_tab]
  | trackWindow id tracked updated_at =>
    simp only [restoreApplyOp, tabKeyStep, hop, CrdtDocument.upsert_window]
  | untrackWindow id updated_at =>
    simp only [restoreApplyOp, tabKeyStep, hop, CrdtDocument.find_window]
    cases hdw : doc.windows id with
    | none => rfl
    | some w => simp [hdw, CrdtDocument.upsert_window]
  | setWindowFocus id focused updated_at =>
    simp only [restoreApplyOp, tabKeyStep, hop, CrdtDocument.find_window]
    cases hdw : doc.windows id with
    | none => rfl
    | some w => simp [hdw, CrdtDocument.upsert_window]

theorem restoreApplyOp_windows (doc : CrdtDocument) (sop : StoredOperation)
    (k : Str) :
    (restoreApplyOp doc sop).windows k = winKeyStep k (doc.windows k) sop := by
  cases hop : sop.operation with
  | upsertTab id data =>
    simp only [restoreApplyOp, winKeyStep, hop, CrdtDocument.upsert_tab]
  | closeTab id closed_at =>
    simp only [restoreApplyOp, winKeyStep, hop, CrdtDocument.remove_tab]
  | setActive id active updated_at =>
    simp only [restoreApplyOp, winKeyStep, hop, CrdtDocument.find_tab]
    cases hdt : doc.tabs id with
    | none => rfl
    | some t => simp [hdt, CrdtDocument.upsert_tab]
  | moveTab id window_id index updated_at =>
    simp only [restoreApplyOp, winKeyStep, hop, CrdtDocument.find_tab]
    cases hdt : doc.tabs id with
    | none => rfl
    | some t => simp [hdt, CrdtDocument.upsert_tab]
  | changeUrl id url title updated_at =>
    simp only [restoreApplyOp, winKeyStep, hop, CrdtDocument.find_tab]
    cases hdt : doc.tabs id with
    | none => rfl
    | some t => simp [hdt, CrdtDocument.upsert_tab]
  | trackWindow id tracked updated_at =>
    simp only [restoreApplyOp, winKeyStep, hop, CrdtDocument.upsert_window]
  | untrackWindow id updated_at =>
    simp only [restoreApplyOp, winKeyStep, hop, CrdtDocument.find_window]
    by_cases hk : k = id
    · subst hk
      cases hdw : doc.windows k with
      | none => simp [hdw]
      | some w => simp [hdw, CrdtDocument.upsert_window]
    · cases hdw : doc.windows id with
      | none => simp [hdw, hk]
      | some w => simp [hdw, hk, CrdtDocument.upsert_window]
  | setWindowFocus id focused updated_at =>
    simp only [restoreApplyOp, winKeyStep, hop, CrdtDocument.find_window]
    by_cases hk : k = id
    · subst hk
      cases hdw : doc.windows k with
      | none => simp [hdw]
      | some w => simp [hdw, CrdtDocument.upsert_window]
    · cases hdw : doc.windows id with
      | none => simp [hdw, hk]
      | some w => simp [hdw, hk, CrdtDocument.upsert_window]

theorem restore_tabs_foldl (operations : List StoredOperation) :
    ∀ (doc : CrdtDocument) (k : Str),
      (restore_from_operations doc operations).tabs k =
        operations.foldl (tabKeyStep k) (doc.tabs k) := by
  induction operations with
  | nil => intro doc k; rfl
  | cons sop rest ih =>
    intro doc k
    show (restore_from_operations (restoreApplyOp doc sop) rest).tabs k = _
    rw [ih, List.foldl_cons, restoreApplyOp_tabs]

theorem restore_windows_foldl (operations : List StoredOperation) :
    ∀ (doc : CrdtDocument) (k : Str),
      (restore_from_operations doc operations).windows k =
        operations.foldl (winKeyStep k) (doc.windows k) := by
  induction operations with
  | nil => intro doc k; rfl
  | cons sop rest ih =>
    intro doc k
    show (restore_from_operations (restoreApplyOp doc sop) rest).windows k = _
    rw [ih, List.foldl_cons, restoreApplyOp_windows]

theorem tabKeyStep_const_or_bot (k : Str) (sop : StoredOperation) :
    (∀ s s', tabKeyStep k s sop = tabKeyStep k s' sop) ∨
      tabKeyStep k none sop = none := by
  cases hop : sop.operation with
  | upsertTab id data =>
    by_cases hk : k = id
    · left; intro s s'; simp [tabKeyStep, hop, hk]
    · right; simp [tabKeyStep, hop, hk]
  | closeTab id closed_at =>
    by_cases hk : k = id
    · left; intro s s'; simp [tabKeyStep, hop, hk]
    · right; simp [tabKeyStep, hop, hk]
  | setActive id active updated_at =>
    right
    simp only [tabKeyStep, hop]
    split_ifs <;> rfl
  | moveTab id window_id index updated_at =>
    right
    simp only [tabKeyStep, hop]
    split_ifs <;> rfl
  | changeUrl id url title updated_at =>
    right
    simp only [tabKeyStep, hop]
    split_ifs <;> rfl
  | trackWindow id tracked updated_at => right; simp [tabKeyStep, hop]
  | untrackWindow id updated_at => right; simp [tabKeyStep, hop]
  | setWindowFocus id focused updated_at => right; simp [tabKeyStep, hop]

theorem winKeyStep_const_or_bot (k : Str) (sop : StoredOperation) :
    (∀ s s', winKeyStep k s sop = winKeyStep k s' sop) ∨
      winKeyStep k none sop = none := by
  cases hop : sop.operation with
  | upsertTab id data => right; simp [winKeyStep, hop]
  | closeTab id closed_at => right; simp [winKeyStep, hop]
  | setActive id active updated_at => right; simp [winKeyStep, hop]
  | moveTab id window_id index updated_at => right; simp [winKeyStep, hop]
  | changeUrl id url title updated_at => right; simp [winKeyStep, hop]
  | trackWindow id tracked updated_at =>
    by_cases hk : k = id
    · left; intro s s'; simp [winKeyStep, hop, hk]
    · right; simp [winKeyStep, hop, hk]
  | untrackWindow id updated_at =>
    right
    simp only [winKeyStep, hop]
    split_ifs <;> rfl
  | setWindowFocus id focused updated_at =>
    right
    simp only [winKeyStep, hop]
    split_ifs <;> rfl

/-- Claim C9: replaying the whole log twice into a fresh CRDT document
(`CrdtManager::restore_from_operations`) yields the same tab and window
snapshots as replaying it once. -/
theorem c9_replay_idempotent (operations : List StoredOperation) :
    restore_from_operations
        (restore_from_operations CrdtDocument.new operations) operations =
      restore_from_operations CrdtDocument.new operations := by
  refine CrdtDocument.ext ?_ ?_
  · funext k
    rw [restore_tabs_foldl, restore_tabs_foldl]
    show List.foldl (tabKeyStep k)
        (List.foldl (tabKeyStep k) none operations) operations =
      List.foldl (tabKeyStep k) none operations
    exact foldl_twice_eq (tabKeyStep k) none
      (tabKeyStep_const_or_bot k) operations
  · funext k
    rw [restore_windows_foldl, restore_windows_foldl]
    show List.foldl (winKeyStep k)
        (List.foldl (winKeyStep k) none operations) operations =
      List.foldl (winKeyStep k) none operations
    exact foldl_twice_eq (winKeyStep k) none
      (winKeyStep_const_or_bot k) operations

/-! ## Claim C4: startup replay vs the live path. The tab arms of
`restore_from_operations` and `apply_operation_to_state` are identical; the
window arms differ (`TrackWindow` forces `tracked = true` on replay and
`UntrackWindow` on a missing window is skipped on replay but creates an
untracked record on the live path). -/

theorem liveApply_tabs (doc : CrdtDocument) (sop : StoredOperation)
    (k : Str) :
    (apply_operation_to_state doc sop.operation sop.clock).tabs k =
      tabKeyStep k (doc.tabs k) sop := by
  cases hop : sop.operation with
  | upsertTab id data =>
    simp only [apply_operation_to_state, tabKeyStep, hop,
      CrdtDocument.upsert_tab]
  | closeTab id closed_at =>
    simp only [apply_operation_to_state, tabKeyStep, hop,
      CrdtDocument.remove_tab]
  | setActive id active updated_at =>
    simp only [apply_operation_to_state, tabKeyStep, hop,
      CrdtDocument.find_tab]
    by_cases hk : k = id
    · subst hk
      cases hdt : doc.tabs k with
      | none => simp [hdt]
      | some t => simp [hdt, CrdtDocument.upsert_tab]
    · cases hdt : doc.tabs id with
      | none => simp [hdt, hk]
      | some t => simp [hdt, hk, CrdtDocument.upsert_tab]
  | moveTab id window_id index updated_at =>
    simp only [apply_operation_to_state, tabKeyStep, hop,
      CrdtDocument.find_tab]
    by_cases hk : k = id
    · subst hk
      cases hdt : doc.tabs k with
      | none => simp [hdt]
      | some t => simp [hdt, CrdtDocument.upsert_tab]
    · cases hdt : doc.tabs id with
      | none => simp [hdt, hk]
      | some t => simp [hdt, hk, CrdtDocument.upsert_tab]
  | changeUrl id url title updated_at =>
    simp only [apply_operation_to_state, tabKeyStep, hop,
      CrdtDocument.find_tab]
    by_cases hk : k = id
    · subst hk
      cases hdt : doc.tabs k with
      | none => simp [hdt]
      | some t => simp [hdt, CrdtDocument.upsert_tab]
    · cases hdt : doc.tabs id with
      | none => simp [hdt, hk]
      | some t => simp [hdt, hk, CrdtDocument.upsert_tab]
  | trackWindow id tracked updated_at =>
    simp only [apply_operation_to_state, tabKeyStep, hop,
      CrdtDocument.upsert_window]
  | untrackWindow id updated_at =>
    simp only [apply_operation_to_state, tabKeyStep, hop,
      CrdtDocument.find_window]
    cases hdw : doc.windows id with
    | none => simp [hdw, CrdtDocument.upsert_window]
    | some w => simp [hdw, CrdtDocument.upsert_window]
  | setWindowFocus id focused updated_at =>
    simp only [apply_operation_to_state, tabKeyStep, hop,
      CrdtDocument.find_window]
    cases hdw : doc.windows id with
    | none => rfl
    | some w => simp [hdw, CrdtDocument.upsert_window]

theorem applyAllLive_tabs_foldl (operations : List StoredOperation) :
    ∀ (doc : CrdtDocument) (k : Str),
      (applyAllLive doc operations).tabs k =
        operations.foldl (tabKeyStep k) (doc.tabs k) := by
  induction operations with
  | nil => intro doc k; rfl
  | cons sop rest ih =>
    intro doc k
    show (applyAllLive
      (apply_operation_to_state doc sop.operation sop.clock) rest).tabs k = _
    rw [ih, List.foldl_cons, liveApply_tabs]

/-- Constraint on `TrackWindow` payloads under which replay agrees with the
live path. -/
def trackedFlagTrue (sop : StoredOperation) : Prop :=
  match sop.operation with
  | .trackWindow _ tracked _ => tracked = true
  | _ => True

/-- Every `UntrackWindow` in the list targets a window for which a
`TrackWindow` occurred earlier (or was already present in `tracked`). -/
def untracksCovered : List StoredOperation → List Str → Prop
  | [], _ => True
  | sop :: rest, tracked =>
    match sop.operation with
    | .trackWindow id _ _ => untracksCovered rest (id :: tracked)
    | .untrackWindow id _ => id ∈ tracked ∧ untracksCovered rest tracked
    | _ => untracksCovered rest tracked

theorem restoreApplyOp_eq_live (doc : CrdtDocument) (sop : StoredOperation)
    (h1 : trackedFlagTrue sop)
    (h2 : ∀ id u, sop.operation = CrdtOperation.untrackWindow id u →
      doc.windows id ≠ none) :
    restoreApplyOp doc sop =
      apply_operation_to_state doc sop.operation sop.clock := by
  cases hop : sop.operation with
  | upsertTab id data => simp [restoreApplyOp, apply_operation_to_state, hop]
  | closeTab id closed_at =>
    simp [restoreApplyOp, apply_operation_to_state, hop]
  | setActive id active updated_at =>
    simp [restoreApplyOp, apply_operation_to_state, hop]
  | moveTab id window_id index updated_at =>
    simp [restoreApplyOp, apply_operation_to_state, hop]
  | changeUrl id url title updated_at =>
    simp [restoreApplyOp, apply_operation_to_state, hop]
  | trackWindow id tracked updated_at =>
    have ht : tracked = true := by
      simp only [trackedFlagTrue, hop] at h1
      exact h1
    subst ht
    simp [restoreApplyOp, apply_operation_to_state, hop]
  | untrackWindow id updated_at =>
    have hw := h2 id updated_at hop
    simp only [restoreApplyOp, apply_operation_to_state, hop,
      CrdtDocument.find_window]
    cases hdw : doc.windows id with
    | none => exact absurd hdw hw
    | some w => simp [hdw]
  | setWindowFocus id focused updated_at =>
    simp [restoreApplyOp, apply_operation_to_state, hop]

theorem restoreApplyOp_windows_nonvanish (doc : CrdtDocument)
    (sop : StoredOperation) (k : Str) (h : doc.windows k ≠ none) :
    (restoreApplyOp doc sop).windows k ≠ none := by
  rw [restoreApplyOp_windows]
  cases hop : sop.operation with
  | upsertTab id data => simpa [winKeyStep, hop] using h
  | closeTab id closed_at => simpa [winKeyStep, hop] using h
  | setActive id active updated_at => simpa [winKeyStep, hop] using h
  | moveTab id window_id index updated_at => simpa [winKeyStep, hop] using h
  | changeUrl id url title updated_at => simpa [winKeyStep, hop] using h
  | trackWindow id tracked updated_at =>
    simp only [winKeyStep, hop]
    split_ifs
    · simp
    · exact h
  | untrackWindow id updated_at =>
    simp only [winKeyStep, hop]
    split_ifs
    · cases hdw : doc.windows k with
      | none => exact absurd hdw h
      | some w => simp
    · exact h
  | setWindowFocus id focused updated_at =>
    simp only [winKeyStep, hop]
    split_ifs
    · cases hdw : doc.windows k with
      | none => exact absurd hdw h
      | some w => simp
    · exact h

theorem restoreApplyOp_track_creates (doc : CrdtDocument)
    (sop : StoredOperation) (id : Str) (tracked : Bool) (u : Nat)
    (hop : sop.operation = CrdtOperation.trackWindow id tracked u) :
    (restoreApplyOp doc sop).windows id ≠ none := by
  rw [restoreApplyOp_windows]
  simp [winKeyStep, hop]

theorem c4_full_aux (operations : List StoredOperation) :
    ∀ (doc : CrdtDocument) (tracked : List Str),
      (∀ sop ∈ operations, trackedFlagTrue sop) →
      untracksCovered operations tracked →
      (∀ w ∈ tracked, doc.windows w ≠ none) →
      restore_from_operations doc operations = applyAllLive doc operations := by
  induction operations with
  | nil => intro doc tracked _ _ _; rfl
  | cons sop rest ih =>
    intro doc tracked htrue hcov hinv
    have h1 := htrue sop (List.mem_cons_self sop rest)
    have htrue' : ∀ s ∈ rest, trackedFlagTrue s :=
      fun s hs => htrue s (List.mem_cons_of_mem _ hs)
    cases hop : sop.operation with
    | trackWindow id tr u =>
      have hstep := restoreApplyOp_eq_live doc sop h1
        (fun id' u' he => by rw [hop] at he; cases he)
      show restore_from_operations (restoreApplyOp doc sop) rest =
        applyAllLive (apply_operation_to_state doc sop.operation sop.clock)
          rest
      rw [← hstep]
      have hcov' : untracksCovered rest (id :: tracked) := by
        simp only [untracksCovered, hop] at hcov
        exact hcov
      refine ih (restoreApplyOp doc sop) (id :: tracked) htrue' hcov' ?_
      intro w hw
      rcases List.mem_cons.mp hw with rfl | hw'
      · exact restoreApplyOp_track_creates doc sop w tr u hop
      · exact restoreApplyOp_windows_nonvanish doc sop w (hinv w hw')
    | untrackWindow id u =>
      have hcov' : id ∈ tracked ∧ untracksCovered rest tracked := by
        simp only [untracksCovered, hop] at hcov
        exact hcov
      have hstep := restoreApplyOp_eq_live doc sop h1
        (fun id' u' he => by
          rw [hop] at he
          injection he with hid _
          rw [← hid]
          exact hinv id hcov'.1)
      show restore_from_operations (restoreApplyOp doc sop) rest =
        applyAllLive (apply_operation_to_state doc sop.operation sop.clock)
          rest
      rw [← hstep]
      exact ih (restoreApplyOp doc sop) tracked htrue' hcov'.2
        (fun w hw => restoreApplyOp_windows_nonvanish doc sop w (hinv w hw))
    | upsertTab id data =>
      have hstep := restoreApplyOp_eq_live doc sop h1
        (fun id' u' he => by rw [hop] at he; cases he)
      show restore_from_operations (restoreApplyOp doc sop) rest =
        applyAllLive (apply_operation_to_state doc sop.operation sop.clock)
          rest
      rw [← hstep]
      have hcov' : untracksCovered rest tracked := by
        simp only [untracksCovered, hop] at hcov
        exact hcov
      exact ih (restoreApplyOp doc sop) tracked htrue' hcov'
        (fun w hw => restoreApplyOp_windows_nonvanish doc sop w (hinv w hw))
    | closeTab id closed_at =>
      have hstep := restoreApplyOp_eq_live doc sop h1
        (fun id' u' he => by rw [hop] at he; cases he)
      show restore_from_operations (restoreApplyOp doc sop) rest =
        applyAllLive (apply_operation_to_state doc sop.operation sop.clock)
          rest
      rw [← hstep]
      have hcov' : untracksCovered rest tracked := by
        simp only [untracksCovered, hop] at hcov
        exact hcov
      exact ih (restoreApplyOp doc sop) tracked htrue' hcov'
        (fun w hw => restoreApplyOp_windows_nonvanish doc sop w (hinv w hw))
    | setActive id active updated_at =>
      have hstep := restoreApplyOp_eq_live doc sop h1
        (fun id' u' he => by rw [hop] at he; cases he)
      show restore_from_operations (restoreApplyOp doc sop) rest =
        applyAllLive (apply_operation_to_state doc sop.operation sop.clock)
          rest
      rw [← hstep]
      have hcov' : untracksCovered rest tracked := by
        simp only [untracksCovered, hop] at hcov
        exact hcov
      exact ih (restoreApplyOp doc sop) tracked htrue' hcov'
        (fun w hw => restoreApplyOp_windows_nonvanish doc sop w (hinv w hw))
    | moveTab id window_id index updated_at =>
      have hstep := restoreApplyOp_eq_live doc sop h1
        (fun id' u' he => by rw [hop] at he; cases he)
      show restore_from_operations (restoreApplyOp doc sop) rest =
        applyAllLive (apply_operation_to_state doc sop.operation sop.clock)
          rest
      rw [← hstep]
      have hcov' : untracksCovered rest tracked := by
        simp only [untracksCovered, hop] at hcov
        exact hcov
      exact ih (restoreApplyOp doc sop) tracked htrue' hcov'
        (fun w hw => restoreApplyOp_windows_nonvanish doc sop w (hinv w hw))
    | changeUrl id url title updated_at =>
      have hstep := restoreApplyOp_eq_live doc sop h1
        (fun id' u' he => by rw [hop] at he; cases he)
      show restore_from_operations (restoreApplyOp doc sop) rest =
        applyAllLive (apply_operation_to_state doc sop.operation sop.clock)
          rest
      rw [← hstep]
      have hcov' : untracksCovered rest tracked := by
        simp only [untracksCovered, hop] at hcov
        exact hcov
      exact ih (restoreApplyOp doc sop) tracked htrue' hcov'
        (fun w hw => restoreApplyOp_windows_nonvanish doc sop w (hinv w hw))
    | setWindowFocus id focused updated_at =>
      have hstep := restoreApplyOp_eq_live doc sop h1
        (fun id' u' he => by rw [hop] at he; cases he)
      show restore_from_operations (restoreApplyOp doc sop) rest =
        applyAllLive (apply_operation_to_state doc sop.operation sop.clock)
          rest
      rw [← hstep]
      have hcov' : untracksCovered rest tracked := by
        simp only [untracksCovered, hop] at hcov
        exact hcov
      exact ih (restoreApplyOp doc sop) tracked htrue' hcov'
        (fun w hw => restoreApplyOp_windows_nonvanish doc sop w (hinv w hw))

/-- Claim C4, amended: the tab snapshots of the startup replay and the live
path always agree; the full document (including window snapshots) agrees
whenever every `TrackWindow` in the log carries `tracked = true` and every
`UntrackWindow` targets a window tracked earlier in the log. The
counterexample shows both window-side divergences. -/
theorem c4_restore_matches_live (operations : List StoredOperation) :
    ((restore_from_operations CrdtDocument.new operations).tabs =
        (applyAllLive CrdtDocument.new operations).tabs) ∧
      ((∀ sop ∈ operations, trackedFlagTrue sop) →
        untracksCovered operations [] →
        restore_from_operations CrdtDocument.new operations =
          applyAllLive CrdtDocument.new operations) := by
  constructor
  · funext k
    rw [restore_tabs_foldl, applyAllLive_tabs_foldl]
  · intro h1 h2
    exact c4_full_aux operations CrdtDocument.new [] h1 h2
      (fun w hw => absurd hw (List.not_mem_nil w))

def c4TrackFalseOp : StoredOperation :=
  { id := [], clock := 1, device_id := [],
    operation := CrdtOperation.trackWindow ("w".data) false 0,
    created_at := 0 }

def c4UntrackOp : StoredOperation :=
  { id := [], clock := 1, device_id := [],
    operation := CrdtOperation.untrackWindow ("v".data) 0,
    created_at := 0 }

def c4WinWFalse : CrdtWindow :=
  { id := "w".data, tracked := false, tab_count := 0, updated_at := 1 }

def c4WinWTrue : CrdtWindow :=
  { id := "w".data, tracked := true, tab_count := 0, updated_at := 1 }

def c4WinVFalse : CrdtWindow :=
  { id := "v".data, tracked := false, tab_count := 0, updated_at := 1 }

/-- Claim C4 counterexample: on `TrackWindow{tracked:false}` the live path
records `tracked = false` while the replay forces `tracked = true`; on
`UntrackWindow` of an unknown window the live path creates an untracked
record while the replay skips it. So replay and live application do not
agree, and `TrackWindow` does not yield `tracked = true` in the live
embedding. -/
theorem c4_window_divergence :
    (applyAllLive CrdtDocument.new [c4TrackFalseOp]).windows ("w".data) =
        some c4WinWFalse ∧
      (restore_from_operations CrdtDocument.new [c4TrackFalseOp]).windows
          ("w".data) =
        some c4WinWTrue ∧
      (some c4WinWFalse : Option CrdtWindow) ≠ some c4WinWTrue ∧
      (applyAllLive CrdtDocument.new [c4UntrackOp]).windows ("v".data) =
        some c4WinVFalse ∧
      (restore_from_operations CrdtDocument.new [c4UntrackOp]).windows
          ("v".data) = none ∧
      (some c4WinVFalse : Option CrdtWindow) ≠ none := by
  refine ⟨?_, ?_, by decide, ?_, ?_, by decide⟩
  · rfl
  · rfl
  · rfl
  · rfl

def c4WitnessOps : List StoredOperation :=
  [{ id := [], clock := 1, device_id := [],
     operation := CrdtOperation.trackWindow ("w".data) true 0,
     created_at := 0 },
   { id := [], clock := 2, device_id := [],
     operation := CrdtOperation.untrackWindow ("w".data) 0,
     created_at := 0 }]

theorem c4_restore_matches_live_witness :
    ((restore_from_operations CrdtDocument.new c4WitnessOps).tabs =
        (applyAllLive CrdtDocument.new c4WitnessOps).tabs) ∧
      (restore_from_operations CrdtDocument.new c4WitnessOps =
        applyAllLive CrdtDocument.new c4WitnessOps) :=
  ⟨(c4_restore_matches_live c4WitnessOps).1,
    (c4_restore_matches_live c4WitnessOps).2
      (by
        intro sop hs
        rcases List.mem_cons.mp hs with rfl | hs
        · exact rfl
        · rcases List.mem_cons.mp hs with rfl | hs
          · exact trivial
          · cases hs)
      ⟨List.mem_cons_self _ _, trivial⟩⟩
